import Mathlib

/-!
Verification of the NLFS point-of-sale persistence core.

This file gives a shallow embedding, in Lean, of the ledger operations of
`src/app.py` (`create_sale`, `void_sale`, `receive_order`), of the settings
migrations and the statement translator of `src/database.py`, and of the bulk
export/import pair (`export_all_data`, `import_all_data`).  The database is
modelled relationally: each SQL table is a Lean list of rows, text columns are
`String`, `INTEGER` columns are `Int`, and autoincrement ids are threaded
explicitly.  Columns of SQL type `REAL` (monetary amounts) are omitted from the
row types: they are carried through the code unchanged and no verified property
mentions them.  Ambient nondeterminism (clock readings, generated receipt
numbers, random SKU candidates) is passed in as explicit arguments.
-/

namespace Nlfs

/-- A row of the `inventory` table (`src/database.py` schema).  The `barcode`
column participates in the unique index `idx_inventory_barcode` created by the
migrations, so it is kept in the model. -/
structure Product where
  sku : String
  barcode : String
  name : String
  quantity : Int
  last_updated : String
  deriving Repr, DecidableEq

/-- A row of the `sales` table (REAL money columns omitted). -/
structure SaleRow where
  id : Nat
  receipt_number : String
  timestamp : String
  date : String
  payment_method : String
  cashier : String
  customer_name : String
  customer_phone : String
  customer_email : String
  status : String
  voided_at : String
  voided_by : String
  void_reason : String
  deriving Repr, DecidableEq

/-- A row of the `sale_items` table (REAL money columns omitted). -/
structure SaleItemRow where
  sale_id : Nat
  sku : String
  name : String
  quantity : Int
  deriving Repr, DecidableEq

/-- A row of the append-only `inventory_log` table. -/
structure LogRow where
  sku : String
  action : String
  description : String
  old_value : String
  new_value : String
  qty_change : Int
  created : String
  deriving Repr, DecidableEq

/-- A row of the `customers` table (unique key: `phone`). -/
structure CustomerRow where
  phone : String
  name : String
  email : String
  created : String
  last_updated : String
  deriving Repr, DecidableEq

/-- A row of the `suppliers` table (unique key: `name`). -/
structure SupplierRow where
  name : String
  contact_person : String
  phone : String
  email : String
  created : String
  last_updated : String
  deriving Repr, DecidableEq

/-- A row of the `users` table (primary key `id`, unique `username`). -/
structure UserRow where
  id : String
  name : String
  username : String
  password : String
  role : String
  deriving Repr, DecidableEq

/-- A row of the `purchase_orders` table. -/
structure OrderRow where
  id : Nat
  order_number : String
  supplier_name : String
  status : String
  received_date : String
  received_by : String
  receive_notes : String
  last_updated : String
  deriving Repr, DecidableEq

/-- A row of the `purchase_order_items` table (REAL cost columns omitted). -/
structure POItemRow where
  id : Nat
  order_id : Nat
  sku : String
  quantity : Int
  received_qty : Int
  deriving Repr, DecidableEq

/-- A row of the `purchases` history table (REAL cost columns omitted). -/
structure PurchaseRow where
  sku : String
  supplier : String
  quantity : Int
  invoice_number : String
  notes : String
  created : String
  deriving Repr, DecidableEq

/-- The relational database state.  `next_sale_id` and `next_order_id` thread
the AUTOINCREMENT counters of `sales` and `purchase_orders`. -/
structure DB where
  users : List UserRow
  settings : List (String × String)
  inventory : List Product
  suppliers : List SupplierRow
  customers : List CustomerRow
  sales : List SaleRow
  sale_items : List SaleItemRow
  inventory_log : List LogRow
  purchase_orders : List OrderRow
  purchase_order_items : List POItemRow
  purchases : List PurchaseRow
  next_sale_id : Nat
  deriving Repr, DecidableEq

/-- ASCII whitespace, as stripped by Python's `str.strip()`. -/
def pyWS (c : Char) : Bool :=
  c == ' ' || c == '\t' || c == '\n' || c == '\r' || c == '\x0b' || c == '\x0c'

/-- Python's `str.strip()` (an executable model: drop whitespace from both
ends; the strings this code strips are ASCII). -/
def pyStrip (s : String) : String :=
  ⟨((s.data.dropWhile pyWS).reverse.dropWhile pyWS).reverse⟩

/-- Python's `str.lower()` (ASCII model). -/
def pyLower (s : String) : String :=
  ⟨s.data.map Char.toLower⟩

/-- The lookup `SELECT ... FROM inventory WHERE sku = ?` (first matching row). -/
def findProduct (inv : List Product) (sku : String) : Option Product :=
  inv.find? (fun p => p.sku == sku)

/-- One line of a sale-creation request (`sale["items"]` in `create_sale`).
An absent or empty SKU is encoded as `""`; `line.get("sku")`'s `None` and `""`
are both falsy in every place the code tests them. -/
structure SaleLine where
  sku : String
  name : String
  quantity : Int
  deriving Repr, DecidableEq

/-- A sale-creation request body. -/
structure SaleReq where
  items : List SaleLine
  payment_method : String
  cashier : String
  customer_name : String
  customer_phone : String
  customer_email : String
  deriving Repr, DecidableEq

/-- Stock pre-validation of a single request line (`create_sale`,
`src/app.py` lines 864-875): a line with no SKU is skipped; an unknown SKU or
`row["quantity"] < qty` accumulates a descriptive message. -/
def lineError (inv : List Product) (l : SaleLine) : Option String :=
  if l.sku = "" then none
  else
    match findProduct inv l.sku with
    | none => some ("Product " ++ l.sku ++ " not found in inventory")
    | some row =>
      if row.quantity < l.quantity then
        some (row.name ++ " — only " ++ toString row.quantity ++
              " in stock, requested " ++ toString l.quantity)
      else none

/-- Whether the stock pre-validation rejects line `l`. -/
def lineFailing (inv : List Product) (l : SaleLine) : Bool :=
  (lineError inv l).isSome

/-- The accumulated `stock_errors` list of `create_sale`. -/
def stockErrors (inv : List Product) (items : List SaleLine) : List String :=
  items.filterMap (lineError inv)

/-- The per-line write step of `create_sale` (`src/app.py` lines 910-939):
insert the `sale_items` snapshot row, then, when the line has a SKU, update
`inventory` with `quantity = MAX(0, quantity - ?)` and append the `"Sale"`
audit row. -/
def saleLineApply (receipt timestamp today : String) (sale_id : Nat)
    (db : DB) (line : SaleLine) : DB :=
  let db1 := { db with sale_items :=
    db.sale_items ++ [⟨sale_id, line.sku, line.name, line.quantity⟩] }
  if line.sku = "" then db1
  else
    { db1 with
      inventory := db1.inventory.map (fun p =>
        if p.sku = line.sku then
          { p with quantity := max 0 (p.quantity - line.quantity),
                   last_updated := today }
        else p),
      inventory_log := db1.inventory_log ++
        [⟨line.sku, "Sale",
          "Sold " ++ toString line.quantity ++ " unit(s) — Receipt " ++ receipt,
          "", receipt, -line.quantity, timestamp⟩] }

/-- The customer auto-create/enrich step of `create_sale` (`src/app.py` lines
941-962): keyed on the trimmed phone; an existing row has its `name`/`email`
filled only where previously blank. -/
def customerUpsert (req : SaleReq) (now_str : String) (db : DB) : DB :=
  let phone := pyStrip req.customer_phone
  let cname := pyStrip req.customer_name
  let cemail := pyStrip req.customer_email
  if phone = "" then db
  else
    match db.customers.find? (fun c => c.phone == phone) with
    | some _ =>
      { db with customers := db.customers.map (fun c =>
          if c.phone = phone then
            { c with name := if c.name = "" then cname else c.name,
                     email := if c.email = "" then cemail else c.email,
                     last_updated := now_str }
          else c) }
    | none =>
      { db with customers := db.customers ++ [⟨phone, cname, cemail, now_str, now_str⟩] }

/-- Result of a sale-creation request. -/
inductive SaleResult where
  | insufficientStock (details : List String)
  | created (receipt : String)
  deriving Repr, DecidableEq

/-- The function `create_sale` (`src/app.py` lines 857-983).  The generated receipt number
and the clock readings are passed in (`receipt`, `timestamp`, `sale_date`,
`today`, `now_str`).  On a validation failure the state is returned unchanged
together with the per-line error messages. -/
def create_sale (db : DB) (sale : SaleReq)
    (receipt timestamp sale_date today now_str : String) : DB × SaleResult :=
  let errs := stockErrors db.inventory sale.items
  if errs = [] then
    let sale_id := db.next_sale_id
    let db1 := { db with
      sales := db.sales ++ [{
        id := sale_id, receipt_number := receipt, timestamp := timestamp,
        date := sale_date, payment_method := sale.payment_method,
        cashier := sale.cashier, customer_name := sale.customer_name,
        customer_phone := sale.customer_phone,
        customer_email := sale.customer_email,
        status := "Complete", voided_at := "", voided_by := "", void_reason := "" }],
      next_sale_id := sale_id + 1 }
    let db2 := sale.items.foldl (saleLineApply receipt timestamp today sale_id) db1
    let db3 := customerUpsert sale now_str db2
    (db3, SaleResult.created receipt)
  else (db, SaleResult.insufficientStock errs)

/-- Result of a void request. -/
inductive VoidResult where
  | forbidden
  | notFound
  | alreadyVoided
  | voided (restored : Nat)
  deriving Repr, DecidableEq

/-- The `"Void Refund"` audit row written for one sale item
(`src/app.py` lines 1038-1043). -/
def voidRefundLog (receipt reason now_str : String) (si : SaleItemRow) : LogRow :=
  ⟨si.sku, "Void Refund",
   "Refunded " ++ toString si.quantity ++ " unit(s) — Receipt " ++ receipt ++
     ". Reason: " ++ (if reason = "" then "N/A" else reason),
   "", receipt, si.quantity, now_str⟩

/-- The per-item restore step of `void_sale` (`src/app.py` lines 1031-1043):
rows with a SKU get `quantity = quantity + ?` and a `"Void Refund"` log row. -/
def voidItemApply (receipt reason today now_str : String)
    (db : DB) (si : SaleItemRow) : DB :=
  if si.sku = "" then db
  else
    { db with
      inventory := db.inventory.map (fun p =>
        if p.sku = si.sku then
          { p with quantity := p.quantity + si.quantity, last_updated := today }
        else p),
      inventory_log := db.inventory_log ++ [voidRefundLog receipt reason now_str si] }

/-- The function `void_sale` (`src/app.py` lines 1005-1057).  `role` and `actor_name` come
from the session; the request reason is trimmed on entry. -/
def void_sale (db : DB) (receipt_number reason_raw role actor_name today now_str : String) :
    DB × VoidResult :=
  if role ≠ "admin" ∧ role ≠ "manager" then (db, VoidResult.forbidden)
  else
    let reason := pyStrip reason_raw
    match db.sales.find? (fun s => s.receipt_number == receipt_number) with
    | none => (db, VoidResult.notFound)
    | some sale =>
      if sale.status = "Voided" then (db, VoidResult.alreadyVoided)
      else
        let items := db.sale_items.filter (fun si => si.sale_id == sale.id)
        let db1 := items.foldl (voidItemApply receipt_number reason today now_str) db
        let db2 := { db1 with sales := db1.sales.map (fun s =>
          if s.id = sale.id then
            { s with status := "Voided", voided_at := now_str,
                     voided_by := actor_name, void_reason := reason }
          else s) }
        (db2, VoidResult.voided items.length)

/-- One line of a receive request (`data["items"]` in `receive_order`). -/
structure RecvLine where
  sku : String
  received_qty : Int
  deriving Repr, DecidableEq

/-- Result of a receive request. -/
inductive RecvResult where
  | notFound
  | alreadyReceived
  | ok (status : String)
  deriving Repr, DecidableEq

/-- The per-line step of `receive_order` (`src/app.py` lines 1650-1708).
The accumulator carries the database and the `all_received` flag.  A line is
skipped (`continue`) when the requested quantity is ≤ 0, when no
`purchase_order_items` row matches `(order_id, sku)`, or when the quantity
capped by `ordered - already_received` is ≤ 0.  An applied line updates the
item's `received_qty`, may clear the flag, and — when the SKU exists in
`inventory` — sets the product quantity to `old + recv` and appends the
`"PO Received"` log row and the `purchases` history row. -/
def receiveLineApply (oid : Nat) (order_number supplier_name notes now : String)
    (acc : DB × Bool) (ri : RecvLine) : DB × Bool :=
  let db := acc.1
  let recv0 := ri.received_qty
  if recv0 ≤ 0 then acc
  else
    match db.purchase_order_items.find? (fun q => q.order_id == oid && q.sku == ri.sku) with
    | none => acc
    | some poi =>
      let ordered := poi.quantity
      let already := poi.received_qty
      let max_receivable := ordered - already
      let recv := if recv0 > max_receivable then max max_receivable 0 else recv0
      if recv ≤ 0 then acc
      else
        let new_received := already + recv
        let db1 := { db with purchase_order_items := db.purchase_order_items.map (fun q =>
          if q.id = poi.id then { q with received_qty := new_received } else q) }
        let flag := if new_received < ordered then false else acc.2
        match findProduct db1.inventory ri.sku with
        | none => (db1, flag)
        | some product =>
          let old_qty := product.quantity
          let new_qty := old_qty + recv
          let db2 := { db1 with
            inventory := db1.inventory.map (fun p =>
              if p.sku = ri.sku then { p with quantity := new_qty, last_updated := now } else p),
            inventory_log := db1.inventory_log ++
              [⟨ri.sku, "PO Received",
                "Received " ++ toString recv ++ " units from PO " ++ order_number,
                toString old_qty, toString new_qty, recv, now⟩],
            purchases := db1.purchases ++
              [⟨ri.sku, supplier_name, recv, order_number, notes, now⟩] }
          (db2, flag)

/-- The function `receive_order` (`src/app.py` lines 1633-1718).  After the per-line loop
the order's status becomes `"received"` when the `all_received` flag survived,
else `"partial"`. -/
def receive_order (db : DB) (oid : Nat) (items : List RecvLine)
    (notes actor now : String) : DB × RecvResult :=
  match db.purchase_orders.find? (fun o => o.id == oid) with
  | none => (db, RecvResult.notFound)
  | some row =>
    if row.status = "received" then (db, RecvResult.alreadyReceived)
    else
      let st := items.foldl (receiveLineApply oid row.order_number row.supplier_name notes now) (db, true)
      let new_status := if st.2 then "received" else "partial"
      let db2 := { st.1 with purchase_orders := st.1.purchase_orders.map (fun o =>
        if o.id = oid then
          { o with status := new_status, received_date := now,
                   received_by := actor, receive_notes := notes, last_updated := now }
        else o) }
      (db2, RecvResult.ok new_status)

/-- The currency-symbol normalization step of `_run_sqlite_migrations`
(`src/database.py` lines 740-744): an existing value whose trimmed, lowercased
form is `rs`, `rs.` or `inr` is rewritten to `₹`; any other value — and an
absent row — is left untouched. -/
def sqliteCurrencyMigration (settings : List (String × String)) : List (String × String) :=
  match settings.find? (fun s => s.1 == "currency_symbol") with
  | some kv =>
    if pyLower (pyStrip kv.2) = "rs" ∨ pyLower (pyStrip kv.2) = "rs." ∨ pyLower (pyStrip kv.2) = "inr" then
      settings.map (fun s => if s.1 = "currency_symbol" then (s.1, "₹") else s)
    else settings
  | none => settings

/-- The currency-symbol normalization step of `_run_pg_migrations`
(`src/database.py` lines 876-894): an existing value not already `₹` (after
trimming) is forced to `₹`; an absent row is inserted as `('currency_symbol', '₹')`. -/
def pgCurrencyMigration (settings : List (String × String)) : List (String × String) :=
  match settings.find? (fun s => s.1 == "currency_symbol") with
  | some kv =>
    if pyStrip kv.2 ≠ "₹" then
      settings.map (fun s => if s.1 = "currency_symbol" then (s.1, "₹") else s)
    else settings
  | none => settings ++ [("currency_symbol", "₹")]

/-! ## Statement translator (`PgConnectionWrapper._translate_sql`)

The `INSERT OR REPLACE` rewrite of `src/database.py` lines 103-116 is driven by
the anchored regular expression

  `INSERT\s+OR\s+REPLACE\s+INTO\s+(\w+)\s*\(([^)]+)\)\s*VALUES\s*\(([^)]+)\)`

with the IGNORECASE and DOTALL flags (`re.match`, so it matches a prefix of
the statement).  The pattern is deterministic — `\w`, `\s` and the literal
parentheses are pairwise disjoint character classes, so greedy matching never
needs to backtrack — and is modelled below as a character-list parser. -/

/-- The class `\w` (ASCII range; table and column names in this codebase are ASCII). -/
def isWordChar (c : Char) : Bool := c.isAlphanum || c == '_'

/-- The class `\s`. -/
def isSpaceChar (c : Char) : Bool :=
  c == ' ' || c == '\t' || c == '\n' || c == '\r' || c == '\x0b' || c == '\x0c'

/-- Match a literal keyword case-insensitively, returning the rest. -/
def matchKeywordCI : List Char → List Char → Option (List Char)
  | [], rest => some rest
  | _ :: _, [] => none
  | k :: ks, c :: cs => if c.toLower = k.toLower then matchKeywordCI ks cs else none

/-- The pattern `\s+` followed by greedy space consumption. -/
def skipSpaces1 : List Char → Option (List Char)
  | [] => none
  | c :: rest => if isSpaceChar c then some (rest.dropWhile isSpaceChar) else none

/-- Greedy `p+`: one or more characters satisfying `p`. -/
def takeWhile1 (p : Char → Bool) (cs : List Char) : Option (List Char × List Char) :=
  if (cs.takeWhile p).isEmpty then none else some (cs.takeWhile p, cs.dropWhile p)

/-- A single expected literal character. -/
def expectChar (c : Char) : List Char → Option (List Char)
  | [] => none
  | x :: rest => if x = c then some rest else none

/-- The pattern `([^)]+)\)`: the greedy capture up to, and consuming, the closing paren. -/
def takeUntilClose (cs : List Char) : Option (List Char × List Char) := do
  let (grp, rest) ← takeWhile1 (fun c => c != ')') cs
  let rest ← expectChar ')' rest
  pure (grp, rest)

/-- The pattern `INSERT\s+OR\s+REPLACE\s+INTO\s+` — the keyword head of the pattern. -/
def parseIORHead (cs : List Char) : Option (List Char) := do
  let r ← matchKeywordCI "INSERT".data cs
  let r ← skipSpaces1 r
  let r ← matchKeywordCI "OR".data r
  let r ← skipSpaces1 r
  let r ← matchKeywordCI "REPLACE".data r
  let r ← skipSpaces1 r
  let r ← matchKeywordCI "INTO".data r
  skipSpaces1 r

/-- The pattern `(\w+)\s*\(([^)]+)\)\s*VALUES\s*\(([^)]+)\)` — the capture groups. -/
def parseIORBody (cs : List Char) : Option (List Char × List Char × List Char) := do
  let (table, r) ← takeWhile1 isWordChar cs
  let r ← expectChar '(' (r.dropWhile isSpaceChar)
  let (cols, r) ← takeUntilClose r
  let r ← matchKeywordCI "VALUES".data (r.dropWhile isSpaceChar)
  let r ← expectChar '(' (r.dropWhile isSpaceChar)
  let (vals, _) ← takeUntilClose r
  pure (table, cols, vals)

/-- The anchored prefix match of the `INSERT OR REPLACE` regex, yielding the
`(table, columns, values)` capture groups. -/
def parseIOR (sql : String) : Option (String × String × String) := do
  let r ← parseIORHead sql.data
  let (table, cols, vals) ← parseIORBody r
  pure (String.mk table, String.mk cols, String.mk vals)

/-- The expression `cols.split(",")[0].strip()` — the conflict key of the produced upsert. -/
def first_col (cols : String) : String := pyStrip ((cols.splitOn ",").headD "")

/-- The `DO UPDATE SET` assignment list: every stripped listed column other
than the first, each set from the proposed row (`EXCLUDED`). -/
def iorUpdates (cols : String) : String :=
  String.intercalate ", "
    ((((cols.splitOn ",").map pyStrip).filter (fun c => c ≠ first_col cols)).map
      (fun c => c ++ " = EXCLUDED." ++ c))

/-- The `INSERT OR REPLACE` rewriting stage of `_translate_sql`
(`src/database.py` lines 104-116): a parseable statement becomes a
PostgreSQL upsert keyed on the first listed column; anything the pattern does
not match is passed through unchanged. -/
def translateInsertOrReplace (sql : String) : String :=
  match parseIOR sql with
  | some (table, cols, vals) =>
    "INSERT INTO " ++ table ++ " (" ++ cols ++ ") VALUES (" ++ vals ++
      ") ON CONFLICT (" ++ first_col cols ++ ") DO UPDATE SET " ++ iorUpdates cols
  | none => sql

/-! ## Bulk transfer (`export_all_data` / `import_all_data`)

The snapshot nests each sale's items.  The import replays the sections the
verified claims reference (`users`, `settings`, `inventory`, `suppliers`,
`customers`, `sales`); the trailing audit-history sections (`inventory_log`,
`purchases`, `purchase_orders`) are plain appends that no claim mentions and
are not modelled.  `INSERT OR IGNORE` / `ON CONFLICT DO NOTHING` silently
skips a row on *any* uniqueness violation of the target table; for `inventory`
that includes both the `sku` primary key and the unique index
`idx_inventory_barcode` created by the migrations (`src/database.py` lines
736 and 868).  The import's `INSERT` into `inventory` does not list the
`barcode` column (lines 1231-1234), so every imported row carries the schema
default `''`.  Python's `random.randint` loop for missing SKUs is modelled by
an explicit generator `genSku` applied to the list of used SKUs. -/

/-- An exported sale: the `sales` row with its `sale_items` nested. -/
structure SnapSale where
  sale : SaleRow
  items : List SaleItemRow
  deriving Repr, DecidableEq

/-- The exported snapshot (the sections the claims reference). -/
structure Snapshot where
  users : List UserRow
  settings : List (String × String)
  inventory : List Product
  suppliers : List SupplierRow
  customers : List CustomerRow
  sales : List SnapSale
  deriving Repr, DecidableEq

/-- The function `export_all_data` (`src/database.py` lines 1129-1176): dump every table,
nesting each sale's items (matched on `sale_id`). -/
def export_all_data (db : DB) : Snapshot :=
  { users := db.users
    settings := db.settings
    inventory := db.inventory
    suppliers := db.suppliers
    customers := db.customers
    sales := db.sales.map (fun s =>
      ⟨s, db.sale_items.filter (fun si => si.sale_id == s.id)⟩) }

/-- Per-section import counters (`imported` dict). -/
structure ImportCounts where
  users : Nat
  settings : Nat
  inventory : Nat
  suppliers : Nat
  customers : Nat
  sales : Nat
  deriving Repr, DecidableEq

/-- The statement `INSERT OR IGNORE INTO users ...`: skipped when the `id` primary key or
the unique `username` already exists.  The counter increments either way — an
ignored insert raises no exception (`src/database.py` lines 1188-1199). -/
def importUsers (data : List UserRow) (acc : DB × Nat) : DB × Nat :=
  data.foldl (fun (a : DB × Nat) u =>
    if a.1.users.any (fun x => x.id == u.id || x.username == u.username) then
      (a.1, a.2 + 1)
    else
      ({ a.1 with users := a.1.users ++ [u] }, a.2 + 1)) acc

/-- The statement `INSERT OR REPLACE INTO settings (key, value) VALUES (?,?)`
(`src/database.py` lines 1204-1213): an existing key has its value replaced. -/
def importSettings (data : List (String × String)) (acc : DB × Nat) : DB × Nat :=
  data.foldl (fun (a : DB × Nat) kv =>
    if a.1.settings.any (fun s => s.1 == kv.1) then
      ({ a.1 with settings := a.1.settings.map (fun s =>
          if s.1 = kv.1 then (s.1, kv.2) else s) }, a.2 + 1)
    else
      ({ a.1 with settings := a.1.settings ++ [kv] }, a.2 + 1)) acc

/-- One inventory row of the import (`src/database.py` lines 1221-1245): a
blank SKU gets a fresh generated one; the row is inserted with `OR IGNORE`
semantics, and — the column list omitting `barcode` — with barcode `''`.
The accumulator also carries the `_used_skus` set. -/
def importInventoryRow (genSku : List String → String)
    (a : DB × List String × Nat) (p : Product) : DB × List String × Nat :=
  let sku0 := pyStrip p.sku
  let sku := if sku0 = "" then genSku a.2.1 else sku0
  let used := sku :: a.2.1
  let row : Product := { p with sku := sku, barcode := "" }
  if a.1.inventory.any (fun x => x.sku == row.sku || x.barcode == row.barcode) then
    (a.1, used, a.2.2 + 1)
  else
    ({ a.1 with inventory := a.1.inventory ++ [row] }, used, a.2.2 + 1)

/-- The inventory section of the import (`src/database.py` lines 1216-1246). -/
def importInventory (genSku : List String → String) (data : List Product)
    (acc : DB × Nat) : DB × Nat :=
  let used0 := ((acc.1.inventory.filter (fun p => p.sku ≠ "")).map (fun p => p.sku))
  let r := data.foldl (importInventoryRow genSku) (acc.1, used0, acc.2)
  (r.1, r.2.2)

/-- The statement `INSERT OR IGNORE INTO suppliers ...`: skipped when the unique `name`
already exists (`src/database.py` lines 1250-1262). -/
def importSuppliers (data : List SupplierRow) (acc : DB × Nat) : DB × Nat :=
  data.foldl (fun (a : DB × Nat) s =>
    if a.1.suppliers.any (fun x => x.name == s.name) then (a.1, a.2 + 1)
    else ({ a.1 with suppliers := a.1.suppliers ++ [s] }, a.2 + 1)) acc

/-- The statement `INSERT OR IGNORE INTO customers ...`: skipped when the unique `phone`
already exists (`src/database.py` lines 1266-1278). -/
def importCustomers (data : List CustomerRow) (acc : DB × Nat) : DB × Nat :=
  data.foldl (fun (a : DB × Nat) c =>
    if a.1.customers.any (fun x => x.phone == c.phone) then (a.1, a.2 + 1)
    else ({ a.1 with customers := a.1.customers ++ [c] }, a.2 + 1)) acc

/-- One sale of the import (`src/database.py` lines 1282-1317): a plain
`INSERT` into `sales` — a duplicate `receipt_number` violates the UNIQUE
constraint, the exception is caught, the group rolled back and not counted.
On success the items are replayed under the fresh `sale_id` (the `lastrowid`
guard `if sale_id:` holds because rowids start at 1). -/
def importSaleRow (a : DB × Nat) (s : SnapSale) : DB × Nat :=
  if a.1.sales.any (fun x => x.receipt_number == s.sale.receipt_number) then a
  else
    let sale_id := a.1.next_sale_id
    let db1 := { a.1 with
      sales := a.1.sales ++ [{ s.sale with id := sale_id }],
      next_sale_id := sale_id + 1 }
    let db2 :=
      if sale_id ≠ 0 then
        { db1 with sale_items := db1.sale_items ++
            s.items.map (fun it => { it with sale_id := sale_id }) }
      else db1
    (db2, a.2 + 1)

/-- The sales section of the import. -/
def importSales (data : List SnapSale) (acc : DB × Nat) : DB × Nat :=
  data.foldl importSaleRow acc

/-- The function `import_all_data` (`src/database.py` lines 1179-1318, the sections the
claims reference), returning the new state and the per-section counts. -/
def import_all_data (genSku : List String → String) (data : Snapshot) (db : DB) :
    DB × ImportCounts :=
  let u := importUsers data.users (db, 0)
  let st := importSettings data.settings (u.1, 0)
  let inv := importInventory genSku data.inventory (st.1, 0)
  let sup := importSuppliers data.suppliers (inv.1, 0)
  let cus := importCustomers data.customers (sup.1, 0)
  let sal := importSales data.sales (cus.1, 0)
  (sal.1, ⟨u.2, st.2, inv.2, sup.2, cus.2, sal.2⟩)

/-- The empty (freshly migrated) destination database. -/
def emptyDB : DB :=
  ⟨[], [], [], [], [], [], [], [], [], [], [], 1⟩

/-! ## General lemmas -/

/-- The length of a `filterMap` counts the elements on which `f` fires. -/
theorem length_filterMap_eq_countP {α β : Type} (f : α → Option β) (l : List α) :
    (l.filterMap f).length = l.countP (fun a => (f a).isSome) := by
  induction l with
  | nil => rfl
  | cons a t ih =>
    cases h : f a <;>
      simp [List.filterMap_cons, h, List.countP_cons, ih]

/-! ## C1 — insufficient stock aborts before any write -/

/-- C1: if some line of a sale-creation request carries a SKU that is unknown
or asks for more than the quantity on hand, `create_sale` returns the database
completely unchanged (no table is written) together with an
insufficient-stock error holding exactly one descriptive message per failing
line. -/
theorem create_sale_insufficient_stock_aborts
    (db : DB) (sale : SaleReq) (receipt timestamp sale_date today now_str : String)
    (h : ∃ l ∈ sale.items, lineFailing db.inventory l = true) :
    create_sale db sale receipt timestamp sale_date today now_str =
      (db, SaleResult.insufficientStock (stockErrors db.inventory sale.items)) ∧
    (stockErrors db.inventory sale.items).length =
      sale.items.countP (lineFailing db.inventory) := by
  have hne : stockErrors db.inventory sale.items ≠ [] := by
    obtain ⟨l, hl, hf⟩ := h
    intro hnil
    rw [stockErrors, List.filterMap_eq_nil_iff] at hnil
    rw [lineFailing, hnil l hl] at hf
    simp at hf
  refine ⟨?_, ?_⟩
  · rw [create_sale, if_neg hne]
  · rw [stockErrors, length_filterMap_eq_countP]
    rfl

/-- Witness for C1 at a concrete input: one product `P1` with 5 on hand, a
request for 9 of `P1` plus an unknown SKU `NOPE`. -/
theorem create_sale_insufficient_stock_aborts_witness :
    (∃ l ∈ [(⟨"P1", "Pen", 9⟩ : SaleLine), ⟨"NOPE", "X", 1⟩],
        lineFailing [(⟨"P1", "111111", "Pen", 5, "d0"⟩ : Product)] l = true) ∧
    create_sale ⟨[], [], [⟨"P1", "111111", "Pen", 5, "d0"⟩], [], [], [], [], [], [], [], [], 1⟩
        ⟨[⟨"P1", "Pen", 9⟩, ⟨"NOPE", "X", 1⟩], "Cash", "amy", "", "", ""⟩
        "INV-1" "t" "d" "d" "n" =
      (⟨[], [], [⟨"P1", "111111", "Pen", 5, "d0"⟩], [], [], [], [], [], [], [], [], 1⟩,
       SaleResult.insufficientStock
         (stockErrors [⟨"P1", "111111", "Pen", 5, "d0"⟩]
            [⟨"P1", "Pen", 9⟩, ⟨"NOPE", "X", 1⟩])) := by
  refine ⟨⟨⟨"P1", "Pen", 9⟩, by decide, by decide⟩, ?_⟩
  exact (create_sale_insufficient_stock_aborts _ _ _ _ _ _ _
    ⟨⟨"P1", "Pen", 9⟩, by decide, by decide⟩).1

/-- A `find?` commutes with a map that does not disturb the predicate. -/
theorem find?_map_comm {α : Type} (f : α → α) (p : α → Bool) (l : List α)
    (h : ∀ x, p (f x) = p x) :
    (l.map f).find? p = (l.find? p).map f := by
  induction l with
  | nil => rfl
  | cons a t ih =>
    by_cases ha : p a = true
    · rw [List.map_cons, List.find?_cons_of_pos _ ((h a).trans ha),
        List.find?_cons_of_pos _ ha]
      rfl
    · rw [List.map_cons, List.find?_cons_of_neg, List.find?_cons_of_neg _ ?hn, ih]
      case hn => simpa using ha
      rw [h a]; simpa using ha

/-- The step `customerUpsert` touches only the `customers` table. -/
theorem customerUpsert_inventory (req : SaleReq) (now_str : String) (d : DB) :
    (customerUpsert req now_str d).inventory = d.inventory := by
  rw [customerUpsert]
  split
  · rfl
  · split <;> rfl

/-! ## C10 — a negative-quantity line passes validation and adds stock -/

/-- C10: a sale line whose SKU exists in inventory and whose quantity is
negative is not rejected by the stock pre-validation (`available < requested`
is false), the sale is created, and the inventory update
`quantity = MAX(0, quantity - ?)` *increases* the product's quantity on hand
by the absolute value of the negative quantity. -/
theorem create_sale_negative_qty_adds_stock
    (db : DB) (req : SaleReq) (l : SaleLine) (p : Product)
    (receipt timestamp sale_date today now_str : String)
    (hitems : req.items = [l])
    (hsku : l.sku ≠ "")
    (hfind : findProduct db.inventory l.sku = some p)
    (hq : l.quantity < 0)
    (hp : 0 ≤ p.quantity) :
    lineFailing db.inventory l = false ∧
    (create_sale db req receipt timestamp sale_date today now_str).2 =
      SaleResult.created receipt ∧
    findProduct (create_sale db req receipt timestamp sale_date today now_str).1.inventory
        l.sku =
      some { p with quantity := p.quantity + |l.quantity|, last_updated := today } := by
  have hline : lineError db.inventory l = none := by
    rw [lineError, if_neg hsku, hfind]
    dsimp only
    rw [if_neg (by omega : ¬ p.quantity < l.quantity)]
  have herrs : stockErrors db.inventory req.items = [] := by
    rw [hitems, stockErrors, List.filterMap_cons, hline, List.filterMap_nil]
  have hpsku : p.sku = l.sku := by
    have := List.find?_some hfind
    simpa using this
  refine ⟨by rw [lineFailing, hline]; rfl, ?_, ?_⟩
  · rw [create_sale, if_pos herrs]
  · rw [create_sale, if_pos herrs]
    dsimp only
    rw [customerUpsert_inventory, hitems, List.foldl_cons, List.foldl_nil,
      saleLineApply, if_neg hsku]
    dsimp only [findProduct]
    rw [find?_map_comm _ _ _ ?hpred]
    case hpred =>
      intro x
      by_cases hx : x.sku = l.sku <;> simp [hx]
    rw [show (db.inventory.find? fun q => q.sku == l.sku) = some p from hfind]
    have h1 : p.quantity - l.quantity = p.quantity + |l.quantity| := by
      rw [abs_of_neg hq]; ring
    have h2 : max (0 : Int) (p.quantity - l.quantity) = p.quantity - l.quantity :=
      max_eq_right (by omega)
    simp [hpsku, h2, h1]
    have h3 := abs_nonneg l.quantity
    omega

/-- Witness for C10: product `P1` holds 5 units; a sale line of quantity −3
is accepted and leaves 8 units. -/
theorem create_sale_negative_qty_adds_stock_witness :
    lineFailing [(⟨"P1", "111111", "Pen", 5, "d0"⟩ : Product)] ⟨"P1", "Pen", -3⟩ = false ∧
    (create_sale ⟨[], [], [⟨"P1", "111111", "Pen", 5, "d0"⟩], [], [], [], [], [], [], [], [], 1⟩
        ⟨[⟨"P1", "Pen", -3⟩], "Cash", "amy", "", "", ""⟩ "INV-2" "t" "d" "today" "n").2 =
      SaleResult.created "INV-2" ∧
    findProduct (create_sale ⟨[], [], [⟨"P1", "111111", "Pen", 5, "d0"⟩], [], [], [], [], [], [], [], [], 1⟩
        ⟨[⟨"P1", "Pen", -3⟩], "Cash", "amy", "", "", ""⟩ "INV-2" "t" "d" "today" "n").1.inventory
        "P1" =
      some ⟨"P1", "111111", "Pen", 5 + |(-3 : Int)|, "today"⟩ :=
  create_sale_negative_qty_adds_stock
    ⟨[], [], [⟨"P1", "111111", "Pen", 5, "d0"⟩], [], [], [], [], [], [], [], [], 1⟩
    ⟨[⟨"P1", "Pen", -3⟩], "Cash", "amy", "", "", ""⟩
    ⟨"P1", "Pen", -3⟩ ⟨"P1", "111111", "Pen", 5, "d0"⟩
    "INV-2" "t" "d" "today" "n" rfl (by decide) (by decide) (by decide) (by decide)

/-- A `foldl` preserves any invariant its step preserves. -/
theorem foldl_preserves {σ α : Type} (P : σ → Prop) (f : σ → α → σ) :
    ∀ (l : List α) (s : σ), (∀ s' a, a ∈ l → P s' → P (f s' a)) → P s → P (l.foldl f s) := by
  intro l
  induction l with
  | nil => exact fun s _ hP => hP
  | cons a t ih =>
    intro s hstep hP
    exact ih _ (fun s' b hb => hstep s' b (List.mem_cons_of_mem _ hb))
      (hstep s a (List.mem_cons_self _ _) hP)

/-- The per-line sale step keeps every inventory quantity non-negative:
the decrement is `MAX(0, quantity - ?)`. -/
theorem saleLineApply_inventory_nonneg (receipt timestamp today : String) (sid : Nat)
    (db : DB) (line : SaleLine) (h : ∀ p ∈ db.inventory, 0 ≤ p.quantity) :
    ∀ p ∈ (saleLineApply receipt timestamp today sid db line).inventory, 0 ≤ p.quantity := by
  intro q hq
  rw [saleLineApply] at hq
  by_cases hs : line.sku = ""
  · rw [if_pos hs] at hq
    exact h q hq
  · rw [if_neg hs] at hq
    dsimp only at hq
    obtain ⟨a, ha, rfl⟩ := List.mem_map.mp hq
    by_cases hmatch : a.sku = line.sku
    · rw [if_pos hmatch]
      exact le_max_left _ _
    · rw [if_neg hmatch]
      exact h a ha

/-- The per-item void step only adds the (non-negative) item quantity. -/
theorem voidItemApply_inventory_nonneg (receipt reason today now_str : String)
    (db : DB) (si : SaleItemRow) (h : ∀ p ∈ db.inventory, 0 ≤ p.quantity)
    (hsi : 0 ≤ si.quantity) :
    ∀ p ∈ (voidItemApply receipt reason today now_str db si).inventory, 0 ≤ p.quantity := by
  intro q hq
  rw [voidItemApply] at hq
  by_cases hs : si.sku = ""
  · rw [if_pos hs] at hq
    exact h q hq
  · rw [if_neg hs] at hq
    dsimp only at hq
    obtain ⟨a, ha, rfl⟩ := List.mem_map.mp hq
    by_cases hmatch : a.sku = si.sku
    · rw [if_pos hmatch]
      dsimp only
      have := h a ha
      omega
    · rw [if_neg hmatch]
      exact h a ha

/-- The quantity a receive line actually applies: the request clamped into
`[0, ordered - already_received]`. -/
def appliedQty (recv ordered already : Int) : Int :=
  max 0 (min recv (ordered - already))

theorem appliedQty_eq_zero_left {r o a : Int} (h : r ≤ 0) : appliedQty r o a = 0 :=
  max_eq_left (le_trans (min_le_left _ _) h)

theorem appliedQty_eq_zero_right {r o a : Int} (h : o - a ≤ 0) : appliedQty r o a = 0 :=
  max_eq_left (le_trans (min_le_right _ _) h)

theorem appliedQty_of_gt {r o a : Int} (h2 : o - a < r) (h3 : 0 < o - a) :
    appliedQty r o a = o - a := by
  rw [appliedQty, min_eq_right (le_of_lt h2), max_eq_right (le_of_lt h3)]

theorem appliedQty_of_le {r o a : Int} (h1 : 0 < r) (h2 : r ≤ o - a) :
    appliedQty r o a = r := by
  rw [appliedQty, min_eq_left h2, max_eq_right (le_of_lt h1)]

/-- Characterization of one receive line: either the line is skipped (the
state is unchanged, and any matching order line has a zero applied quantity),
or there is a matching order line with a positive applied quantity, whose
`received_qty` grows by exactly that amount, while the inventory — when the
SKU exists — grows by exactly that amount on the matching product. -/
theorem receiveLineApply_char (oid : Nat)
    (order_number supplier_name notes now : String) (acc : DB × Bool) (ri : RecvLine) :
    (receiveLineApply oid order_number supplier_name notes now acc ri = acc ∧
      ∀ poi, acc.1.purchase_order_items.find?
          (fun q => q.order_id == oid && q.sku == ri.sku) = some poi →
        appliedQty ri.received_qty poi.quantity poi.received_qty = 0) ∨
    (∃ poi, acc.1.purchase_order_items.find?
          (fun q => q.order_id == oid && q.sku == ri.sku) = some poi ∧
      0 < appliedQty ri.received_qty poi.quantity poi.received_qty ∧
      (receiveLineApply oid order_number supplier_name notes now acc ri).1.purchase_order_items =
        acc.1.purchase_order_items.map (fun q =>
          if q.id = poi.id then
            { q with received_qty :=
                poi.received_qty + appliedQty ri.received_qty poi.quantity poi.received_qty }
          else q) ∧
      (receiveLineApply oid order_number supplier_name notes now acc ri).1.inventory =
        (match findProduct acc.1.inventory ri.sku with
         | none => acc.1.inventory
         | some product => acc.1.inventory.map (fun p =>
             if p.sku = ri.sku then
               { p with
                 quantity := product.quantity + appliedQty ri.received_qty poi.quantity poi.received_qty,
                 last_updated := now }
             else p))) := by
  by_cases h0 : ri.received_qty ≤ 0
  · exact Or.inl ⟨by rw [receiveLineApply, if_pos h0],
      fun poi _ => appliedQty_eq_zero_left h0⟩
  · cases hfind : acc.1.purchase_order_items.find?
        (fun q => q.order_id == oid && q.sku == ri.sku) with
    | none =>
      refine Or.inl ⟨?_, fun poi hpoi => by cases hpoi⟩
      rw [receiveLineApply, if_neg h0, hfind]
    | some poi =>
      by_cases hc : ri.received_qty > poi.quantity - poi.received_qty
      · by_cases hz : max (poi.quantity - poi.received_qty) 0 ≤ 0
        · refine Or.inl ⟨?_, fun poi' hpoi' => ?_⟩
          · rw [receiveLineApply, if_neg h0, hfind]
            dsimp only
            rw [if_pos hc, if_pos hz]
          · injection hpoi' with h'
            subst h'
            exact appliedQty_eq_zero_right (le_trans (le_max_left _ _) hz)
        · have hmr : 0 < poi.quantity - poi.received_qty := by
            rcases lt_or_le 0 (poi.quantity - poi.received_qty) with h | h
            · exact h
            · exact absurd (max_le h le_rfl) hz
          have happ := appliedQty_of_gt hc hmr
          have hmx : max (poi.quantity - poi.received_qty) 0 =
              poi.quantity - poi.received_qty := max_eq_left (le_of_lt hmr)
          refine Or.inr ⟨poi, rfl, by rw [happ]; exact hmr, ?_, ?_⟩ <;>
            (rw [receiveLineApply, if_neg h0, hfind]
             dsimp only
             rw [if_pos hc, if_neg hz, happ, hmx]
             cases hfp : findProduct acc.1.inventory ri.sku <;> rfl)
      · have happ := @appliedQty_of_le ri.received_qty poi.quantity poi.received_qty
          (by omega) (by omega)
        refine Or.inr ⟨poi, rfl, by rw [happ]; omega, ?_, ?_⟩ <;>
          (rw [receiveLineApply, if_neg h0, hfind]
           dsimp only
           rw [if_neg hc, if_neg h0, happ]
           cases hfp : findProduct acc.1.inventory ri.sku <;> rfl)

/-- The per-line receive step only ever sets a product quantity to
`old + recv` with `recv > 0` and `old` the quantity of an existing row. -/
theorem receiveLineApply_inventory_nonneg (oid : Nat)
    (order_number supplier_name notes now : String) (acc : DB × Bool) (ri : RecvLine)
    (h : ∀ p ∈ acc.1.inventory, 0 ≤ p.quantity) :
    ∀ p ∈ (receiveLineApply oid order_number supplier_name notes now acc ri).1.inventory,
      0 ≤ p.quantity := by
  rcases receiveLineApply_char oid order_number supplier_name notes now acc ri with
    ⟨heq, -⟩ | ⟨poi, -, hpos, -, hinv⟩
  · rw [heq]
    exact h
  · intro q hq
    rw [hinv] at hq
    cases hfp : findProduct acc.1.inventory ri.sku with
    | none =>
      rw [hfp] at hq
      exact h q hq
    | some product =>
      rw [hfp] at hq
      obtain ⟨a, ha, rfl⟩ := List.mem_map.mp hq
      by_cases hmatch : a.sku = ri.sku
      · rw [if_pos hmatch]
        dsimp only
        have hprod : 0 ≤ product.quantity :=
          h product (List.mem_of_find?_eq_some hfp)
        omega
      · rw [if_neg hmatch]
        exact h a ha

/-! ## C2 — quantity-on-hand stays non-negative -/

/-- C2: starting from non-negative inventory quantities (with non-negative
sale-line and sale-item quantities), each of the three committed operations —
sale creation, sale void, purchase-order receive — leaves every product's
quantity-on-hand non-negative: the sale decrement is clamped at zero and the
other two only add. -/
theorem products_nonneg_after_ops
    (db : DB) (sale : SaleReq) (receipt timestamp sale_date today now_str : String)
    (rn reason role actor vtoday vnow : String)
    (oid : Nat) (ritems : List RecvLine) (notes ractor rnow : String)
    (hinv : ∀ p ∈ db.inventory, 0 ≤ p.quantity)
    (hlines : ∀ l ∈ sale.items, 0 ≤ l.quantity)
    (hitems : ∀ si ∈ db.sale_items, 0 ≤ si.quantity) :
    (∀ p ∈ (create_sale db sale receipt timestamp sale_date today now_str).1.inventory,
       0 ≤ p.quantity) ∧
    (∀ p ∈ (void_sale db rn reason role actor vtoday vnow).1.inventory, 0 ≤ p.quantity) ∧
    (∀ p ∈ (receive_order db oid ritems notes ractor rnow).1.inventory, 0 ≤ p.quantity) := by
  refine ⟨?_, ?_, ?_⟩
  · by_cases he : stockErrors db.inventory sale.items = []
    · rw [create_sale, if_pos he]
      dsimp only
      rw [customerUpsert_inventory]
      exact foldl_preserves (fun d : DB => ∀ p ∈ d.inventory, 0 ≤ p.quantity) _ _ _
        (fun d a _ hd => saleLineApply_inventory_nonneg _ _ _ _ _ _ hd) hinv
    · rw [create_sale, if_neg he]
      exact hinv
  · rw [void_sale]
    by_cases hrole : role ≠ "admin" ∧ role ≠ "manager"
    · rw [if_pos hrole]
      exact hinv
    · rw [if_neg hrole]
      cases hfind : db.sales.find? (fun s => s.receipt_number == rn) with
      | none => exact hinv
      | some s =>
        dsimp only
        by_cases hst : s.status = "Voided"
        · rw [if_pos hst]
          exact hinv
        · rw [if_neg hst]
          dsimp only
          exact foldl_preserves (fun d : DB => ∀ p ∈ d.inventory, 0 ≤ p.quantity) _ _ _
            (fun d a ha hd =>
              voidItemApply_inventory_nonneg _ _ _ _ _ _ hd
                (hitems a (List.mem_filter.mp ha).1)) hinv
  · rw [receive_order]
    cases hfind : db.purchase_orders.find? (fun o => o.id == oid) with
    | none => exact hinv
    | some row =>
      dsimp only
      by_cases hst : row.status = "received"
      · rw [if_pos hst]
        exact hinv
      · rw [if_neg hst]
        dsimp only
        exact foldl_preserves (fun a : DB × Bool => ∀ p ∈ a.1.inventory, 0 ≤ p.quantity)
          _ _ _ (fun a r _ ha => receiveLineApply_inventory_nonneg _ _ _ _ _ _ _ ha) hinv

/-- Witness for C2 at a concrete state: one product with 5 on hand, a sale of
2, a void of receipt `R0` and a receive on order 1. -/
theorem products_nonneg_after_ops_witness :
    (∀ p ∈ (create_sale ⟨[], [], [⟨"P1", "111111", "Pen", 5, "d0"⟩], [], [], [],
        [⟨1, "P1", "Pen", 2⟩], [], [⟨1, "PO1", "Acme", "draft", "", "", "", "d0"⟩],
        [⟨1, 1, "P1", 4, 1⟩], [], 2⟩
        ⟨[⟨"P1", "Pen", 2⟩], "Cash", "amy", "", "", ""⟩ "INV-3" "t" "d" "d" "n").1.inventory,
       0 ≤ p.quantity) ∧
    (∀ p ∈ (void_sale ⟨[], [], [⟨"P1", "111111", "Pen", 5, "d0"⟩], [], [], [],
        [⟨1, "P1", "Pen", 2⟩], [], [⟨1, "PO1", "Acme", "draft", "", "", "", "d0"⟩],
        [⟨1, 1, "P1", 4, 1⟩], [], 2⟩ "R0" "" "admin" "Boss" "d" "n").1.inventory,
       0 ≤ p.quantity) ∧
    (∀ p ∈ (receive_order ⟨[], [], [⟨"P1", "111111", "Pen", 5, "d0"⟩], [], [], [],
        [⟨1, "P1", "Pen", 2⟩], [], [⟨1, "PO1", "Acme", "draft", "", "", "", "d0"⟩],
        [⟨1, 1, "P1", 4, 1⟩], [], 2⟩ 1 [⟨"P1", 9⟩] "" "Boss" "n").1.inventory,
       0 ≤ p.quantity) :=
  products_nonneg_after_ops
    ⟨[], [], [⟨"P1", "111111", "Pen", 5, "d0"⟩], [], [], [],
      [⟨1, "P1", "Pen", 2⟩], [], [⟨1, "PO1", "Acme", "draft", "", "", "", "d0"⟩],
      [⟨1, 1, "P1", 4, 1⟩], [], 2⟩
    ⟨[⟨"P1", "Pen", 2⟩], "Cash", "amy", "", "", ""⟩ "INV-3" "t" "d" "d" "n"
    "R0" "" "admin" "Boss" "d" "n" 1 [⟨"P1", 9⟩] "" "Boss" "n"
    (by decide) (by decide) (by decide)

/-! ## C4 — receiving never pushes `received_qty` past the ordered quantity -/

theorem appliedQty_add_le {r o a : Int} (h : a ≤ o) : a + appliedQty r o a ≤ o := by
  have h2 : min r (o - a) ≤ o - a := min_le_right _ _
  have h3 : max 0 (min r (o - a)) ≤ o - a := max_le (by omega) h2
  rw [appliedQty] at *
  omega

/-- One receive line preserves distinct item ids and the bound
`received_qty ≤ quantity` on every purchase-order item. -/
theorem receiveLineApply_po_invariant (oid : Nat) (onum sname notes now : String)
    (acc : DB × Bool) (ri : RecvLine)
    (h : ((acc.1.purchase_order_items.map (fun q => q.id)).Nodup ∧
          ∀ poi ∈ acc.1.purchase_order_items, poi.received_qty ≤ poi.quantity)) :
    ((receiveLineApply oid onum sname notes now acc ri).1.purchase_order_items.map
        (fun q => q.id)).Nodup ∧
    ∀ poi ∈ (receiveLineApply oid onum sname notes now acc ri).1.purchase_order_items,
      poi.received_qty ≤ poi.quantity := by
  rcases receiveLineApply_char oid onum sname notes now acc ri with
    ⟨heq, -⟩ | ⟨poi, hfind, hpos, hpo, -⟩
  · rw [heq]
    exact h
  · constructor
    · rw [hpo, List.map_map]
      have hcomp : ((fun q : POItemRow => q.id) ∘ fun q =>
          if q.id = poi.id then
            { q with received_qty :=
                poi.received_qty + appliedQty ri.received_qty poi.quantity poi.received_qty }
          else q) = fun q : POItemRow => q.id := by
        funext q
        by_cases hq : q.id = poi.id <;> simp [hq]
      rw [hcomp]
      exact h.1
    · intro x hx
      rw [hpo] at hx
      obtain ⟨a, ha, rfl⟩ := List.mem_map.mp hx
      by_cases hq : a.id = poi.id
      · have hmem : poi ∈ acc.1.purchase_order_items := List.mem_of_find?_eq_some hfind
        have heqa : a = poi := List.inj_on_of_nodup_map h.1 ha hmem hq
        rw [if_pos hq]
        dsimp only
        rw [heqa]
        exact appliedQty_add_le (h.2 poi hmem)
      · rw [if_neg hq]
        exact h.2 a ha

/-- C4: on a state whose purchase-order items have distinct ids and satisfy
`received_qty ≤ quantity`, any `receive_order` call — whatever amounts are
requested — leaves `received_qty ≤ quantity` on every line; moreover each
submitted line with a matching order line advances that line's `received_qty`
by exactly the clamped amount `max 0 (min requested (ordered - already))` and
adds exactly that amount to the matching product's quantity (uniqueness of
inventory SKUs assumed, as the schema's primary key guarantees). -/
theorem receive_order_caps_received_qty
    (db : DB) (oid : Nat) (items : List RecvLine) (notes actor now : String)
    (hids : (db.purchase_order_items.map (fun q => q.id)).Nodup)
    (hle : ∀ poi ∈ db.purchase_order_items, poi.received_qty ≤ poi.quantity) :
    (∀ poi ∈ (receive_order db oid items notes actor now).1.purchase_order_items,
       poi.received_qty ≤ poi.quantity) ∧
    (∀ (acc : DB × Bool) (ri : RecvLine) (poi : POItemRow) (onum sname rnotes rnow : String),
       acc.1.purchase_order_items.find?
           (fun q => q.order_id == oid && q.sku == ri.sku) = some poi →
       (acc.1.inventory.map (fun p => p.sku)).Nodup →
       (receiveLineApply oid onum sname rnotes rnow acc ri).1.purchase_order_items.find?
           (fun q => q.order_id == oid && q.sku == ri.sku) =
         some { poi with received_qty :=
             poi.received_qty + appliedQty ri.received_qty poi.quantity poi.received_qty } ∧
       (receiveLineApply oid onum sname rnotes rnow acc ri).1.inventory.map
           (fun p => p.quantity) =
         acc.1.inventory.map (fun p => p.quantity +
           if p.sku = ri.sku then
             appliedQty ri.received_qty poi.quantity poi.received_qty
           else 0)) := by
  constructor
  · rw [receive_order]
    cases hford : db.purchase_orders.find? (fun o => o.id == oid) with
    | none => exact hle
    | some row =>
      dsimp only
      by_cases hst : row.status = "received"
      · rw [if_pos hst]
        exact hle
      · rw [if_neg hst]
        dsimp only
        exact (foldl_preserves
          (fun a : DB × Bool => ((a.1.purchase_order_items.map (fun q => q.id)).Nodup ∧
            ∀ poi ∈ a.1.purchase_order_items, poi.received_qty ≤ poi.quantity))
          _ items (db, true)
          (fun a r _ ha => receiveLineApply_po_invariant _ _ _ _ _ a r ha) ⟨hids, hle⟩).2
  · intro acc ri poi onum sname rnotes rnow hfind hskus
    rcases receiveLineApply_char oid onum sname rnotes rnow acc ri with
      ⟨heq, hzero⟩ | ⟨poi', hfind', hpos, hpo, hinv⟩
    · have hz := hzero poi hfind
      rw [heq, hz]
      constructor
      · rw [hfind, add_zero]
      · simp
    · rw [hfind] at hfind'
      injection hfind' with h'
      subst h'
      constructor
      · rw [hpo, find?_map_comm _ _ _ ?hpred, hfind]
        case hpred =>
          intro x
          by_cases hx : x.id = poi.id <;> simp [hx]
        simp
      · rw [hinv]
        rw [findProduct] at *
        cases hfp : acc.1.inventory.find? (fun p => p.sku == ri.sku) with
        | none =>
          dsimp only
          have hnone := List.find?_eq_none.mp hfp
          symm
          apply List.map_congr_left
          intro a ha
          have hs : ¬ a.sku = ri.sku := by simpa using hnone a ha
          rw [if_neg hs, add_zero]
        | some product =>
          dsimp only
          rw [List.map_map]
          apply List.map_congr_left
          intro a ha
          by_cases hs : a.sku = ri.sku
          · have hpmem : product ∈ acc.1.inventory := List.mem_of_find?_eq_some hfp
            have hpsku : product.sku = ri.sku := by simpa using List.find?_some hfp
            have heqa : a = product :=
              List.inj_on_of_nodup_map hskus ha hpmem (by rw [hs, hpsku])
            subst heqa
            simp [hs]
          · simp [hs]

/-- Witness for C4: one order line (ordered 4, received 1); requesting 9 of
`P1` applies only 3, ending at the line's ordered quantity. -/
theorem receive_order_caps_received_qty_witness :
    (⟨1, 1, "P1", 4, 4⟩ : POItemRow) ∈ (receive_order
        ⟨[], [], [⟨"P1", "111111", "Pen", 5, "d0"⟩], [], [], [],
        [], [], [⟨1, "PO1", "Acme", "draft", "", "", "", "d0"⟩],
        [⟨1, 1, "P1", 4, 1⟩], [], 2⟩ 1 [⟨"P1", 9⟩] "" "Boss" "n").1.purchase_order_items ∧
    (⟨1, 1, "P1", 4, 4⟩ : POItemRow).received_qty ≤ (⟨1, 1, "P1", 4, 4⟩ : POItemRow).quantity :=
  ⟨by decide,
   (receive_order_caps_received_qty
    ⟨[], [], [⟨"P1", "111111", "Pen", 5, "d0"⟩], [], [], [],
      [], [], [⟨1, "PO1", "Acme", "draft", "", "", "", "d0"⟩],
      [⟨1, 1, "P1", 4, 1⟩], [], 2⟩ 1 [⟨"P1", 9⟩] "" "Boss" "n"
    (by decide) (by decide)).1 ⟨1, 1, "P1", 4, 4⟩ (by decide)⟩

/-! ## C3 — effect of voiding a sale -/

/-- The total quantity the voided sale's items restore to the product with
the given SKU (items with a blank SKU restore nothing). -/
def voidedQty (items : List SaleItemRow) (sku : String) : Int :=
  ((items.filter (fun si => si.sku != "" && si.sku == sku)).map (fun si => si.quantity)).sum

theorem voidFold_sales (rn reason today now_str : String) :
    ∀ (items : List SaleItemRow) (db : DB),
      (items.foldl (voidItemApply rn reason today now_str) db).sales = db.sales := by
  intro items
  induction items with
  | nil => intro db; rfl
  | cons a t ih =>
    intro db
    rw [List.foldl_cons, ih]
    rw [voidItemApply]
    by_cases ha : a.sku = ""
    · rw [if_pos ha]
    · rw [if_neg ha]

theorem voidFold_sale_items (rn reason today now_str : String) :
    ∀ (items : List SaleItemRow) (db : DB),
      (items.foldl (voidItemApply rn reason today now_str) db).sale_items = db.sale_items := by
  intro items
  induction items with
  | nil => intro db; rfl
  | cons a t ih =>
    intro db
    rw [List.foldl_cons, ih]
    rw [voidItemApply]
    by_cases ha : a.sku = ""
    · rw [if_pos ha]
    · rw [if_neg ha]

theorem voidFold_log (rn reason today now_str : String) :
    ∀ (items : List SaleItemRow) (db : DB),
      (items.foldl (voidItemApply rn reason today now_str) db).inventory_log =
        db.inventory_log ++
          (items.filter (fun si => si.sku != "")).map (voidRefundLog rn reason now_str) := by
  intro items
  induction items with
  | nil =>
    intro db
    rw [List.foldl_nil, List.filter_nil, List.map_nil, List.append_nil]
  | cons a t ih =>
    intro db
    rw [List.foldl_cons, ih]
    by_cases ha : a.sku = ""
    · rw [List.filter_cons_of_neg (by simp [ha]), voidItemApply, if_pos ha]
    · rw [List.filter_cons_of_pos (by simp [ha]), voidItemApply, if_neg ha]
      dsimp only
      rw [List.map_cons, List.append_assoc]
      rfl

theorem voidFold_inventory (rn reason today now_str : String) :
    ∀ (items : List SaleItemRow) (db : DB),
      (items.foldl (voidItemApply rn reason today now_str) db).inventory.map
          (fun p => p.quantity) =
        db.inventory.map (fun p => p.quantity + voidedQty items p.sku) := by
  intro items
  induction items with
  | nil =>
    intro db
    simp [voidedQty]
  | cons a t ih =>
    intro db
    rw [List.foldl_cons, ih]
    rw [voidItemApply]
    by_cases ha : a.sku = ""
    · rw [if_pos ha]
      apply List.map_congr_left
      intro p _
      have hvq : voidedQty (a :: t) p.sku = voidedQty t p.sku := by
        rw [voidedQty, voidedQty, List.filter_cons_of_neg (by simp [ha])]
      rw [hvq]
    · rw [if_neg ha]
      dsimp only
      rw [List.map_map]
      apply List.map_congr_left
      intro p _
      dsimp only [Function.comp]
      have hvq : voidedQty (a :: t) p.sku =
          (if a.sku == p.sku then a.quantity else 0) + voidedQty t p.sku := by
        by_cases hs : a.sku = p.sku
        · have ha' : ¬ p.sku = "" := hs ▸ ha
          rw [voidedQty, voidedQty, List.filter_cons_of_pos (by simp [hs, ha']),
            List.map_cons, List.sum_cons, if_pos (by simp [hs])]
        · rw [voidedQty, voidedQty, List.filter_cons_of_neg (by simp [hs]),
            if_neg (by simpa using hs)]
          omega
      by_cases hs : p.sku = a.sku
      · rw [if_pos hs]
        dsimp only
        rw [hvq, if_pos (by simp [hs])]
        omega
      · rw [if_neg hs]
        rw [hvq, if_neg (by simp only [beq_iff_eq]; exact fun h => hs h.symm)]
        omega

/-- C3 (amended): with a privileged role and an existing sale, voiding a
non-voided sale adds to every product exactly the summed quantities of the
sale's items carrying that SKU, appends one `"Void Refund"` log row *per
voided line that has a SKU* (a SKU appearing on several lines gets one row
per line), flips the sale row to `Voided`, and reports the number of items;
voiding an already-`Voided` sale is rejected with the state unchanged. -/
theorem void_sale_effects
    (db : DB) (rn reason role actor today now_str : String) (sale : SaleRow)
    (hrole : role = "admin" ∨ role = "manager")
    (hfind : db.sales.find? (fun s => s.receipt_number == rn) = some sale) :
    (sale.status ≠ "Voided" →
       ((void_sale db rn reason role actor today now_str).1.inventory.map
           (fun p => p.quantity) =
          db.inventory.map (fun p => p.quantity +
            voidedQty (db.sale_items.filter (fun si => si.sale_id == sale.id)) p.sku) ∧
        (void_sale db rn reason role actor today now_str).1.inventory_log =
          db.inventory_log ++
            ((db.sale_items.filter (fun si => si.sale_id == sale.id)).filter
              (fun si => si.sku != "")).map (voidRefundLog rn (pyStrip reason) now_str) ∧
        (void_sale db rn reason role actor today now_str).1.sales =
          db.sales.map (fun s =>
            if s.id = sale.id then
              { s with status := "Voided", voided_at := now_str,
                       voided_by := actor, void_reason := pyStrip reason }
            else s) ∧
        (void_sale db rn reason role actor today now_str).2 =
          VoidResult.voided (db.sale_items.filter (fun si => si.sale_id == sale.id)).length)) ∧
    (sale.status = "Voided" →
       void_sale db rn reason role actor today now_str = (db, VoidResult.alreadyVoided)) := by
  have hrole' : ¬(role ≠ "admin" ∧ role ≠ "manager") := by
    rcases hrole with h | h <;> simp [h]
  constructor
  · intro hst
    rw [void_sale, if_neg hrole', hfind]
    dsimp only
    rw [if_neg hst]
    dsimp only
    refine ⟨?_, ?_, ?_, rfl⟩
    · rw [voidFold_inventory]
    · rw [voidFold_log]
    · rw [voidFold_sales]
  · intro hst
    rw [void_sale, if_neg hrole', hfind]
    dsimp only
    rw [if_pos hst]

/-- Witness for C3 (amended) at a concrete state: sale `R1` owns one item of
2 units of `A`; voiding restores 2 units, appends one refund row, flips the
status, and a second void of the (already voided) sale is rejected. -/
theorem void_sale_effects_witness :
    ("Voided" ≠ "Voided" →
       ((void_sale ⟨[], [], [⟨"A", "b1", "Ap", 7, "d"⟩], [], [],
          [⟨1, "R1", "t", "d", "", "", "", "", "", "Voided", "n2", "Boss", ""⟩],
          [⟨1, "A", "Ap", 2⟩], [], [], [], [], 2⟩ "R1" "" "admin" "Boss" "d2" "n2").1.inventory.map
           (fun p => p.quantity) =
          [⟨"A", "b1", "Ap", 7, "d"⟩].map (fun p : Product => p.quantity +
            voidedQty ([⟨1, "A", "Ap", 2⟩].filter (fun si => si.sale_id == 1)) p.sku) ∧
        (void_sale ⟨[], [], [⟨"A", "b1", "Ap", 7, "d"⟩], [], [],
          [⟨1, "R1", "t", "d", "", "", "", "", "", "Voided", "n2", "Boss", ""⟩],
          [⟨1, "A", "Ap", 2⟩], [], [], [], [], 2⟩ "R1" "" "admin" "Boss" "d2" "n2").1.inventory_log =
          [] ++
            (([(⟨1, "A", "Ap", 2⟩ : SaleItemRow)].filter (fun si => si.sale_id == 1)).filter
              (fun si => si.sku != "")).map (voidRefundLog "R1" (pyStrip "") "n2") ∧
        (void_sale ⟨[], [], [⟨"A", "b1", "Ap", 7, "d"⟩], [], [],
          [⟨1, "R1", "t", "d", "", "", "", "", "", "Voided", "n2", "Boss", ""⟩],
          [⟨1, "A", "Ap", 2⟩], [], [], [], [], 2⟩ "R1" "" "admin" "Boss" "d2" "n2").1.sales =
          [⟨1, "R1", "t", "d", "", "", "", "", "", "Voided", "n2", "Boss", ""⟩].map
            (fun s : SaleRow =>
            if s.id = 1 then
              { s with status := "Voided", voided_at := "n2",
                       voided_by := "Boss", void_reason := pyStrip "" }
            else s) ∧
        (void_sale ⟨[], [], [⟨"A", "b1", "Ap", 7, "d"⟩], [], [],
          [⟨1, "R1", "t", "d", "", "", "", "", "", "Voided", "n2", "Boss", ""⟩],
          [⟨1, "A", "Ap", 2⟩], [], [], [], [], 2⟩ "R1" "" "admin" "Boss" "d2" "n2").2 =
          VoidResult.voided ([(⟨1, "A", "Ap", 2⟩ : SaleItemRow)].filter
            (fun si => si.sale_id == 1)).length)) ∧
    ("Voided" = "Voided" →
       void_sale ⟨[], [], [⟨"A", "b1", "Ap", 7, "d"⟩], [], [],
          [⟨1, "R1", "t", "d", "", "", "", "", "", "Voided", "n2", "Boss", ""⟩],
          [⟨1, "A", "Ap", 2⟩], [], [], [], [], 2⟩ "R1" "" "admin" "Boss" "d2" "n2" =
         (⟨[], [], [⟨"A", "b1", "Ap", 7, "d"⟩], [], [],
          [⟨1, "R1", "t", "d", "", "", "", "", "", "Voided", "n2", "Boss", ""⟩],
          [⟨1, "A", "Ap", 2⟩], [], [], [], [], 2⟩, VoidResult.alreadyVoided)) :=
  void_sale_effects
    ⟨[], [], [⟨"A", "b1", "Ap", 7, "d"⟩], [], [],
      [⟨1, "R1", "t", "d", "", "", "", "", "", "Voided", "n2", "Boss", ""⟩],
      [⟨1, "A", "Ap", 2⟩], [], [], [], [], 2⟩ "R1" "" "admin" "Boss" "d2" "n2"
    ⟨1, "R1", "t", "d", "", "", "", "", "", "Voided", "n2", "Boss", ""⟩
    (Or.inl rfl) (by decide)

/-- Counterexample to C3 as stated: a `Complete` sale with two lines of the
same SKU `A` (2 and 3 units).  Voiding writes *two* `"Void Refund"` log rows
for `A`, while the set of affected SKUs has one element — not "one entry per
affected SKU". -/
theorem void_sale_one_log_per_sku_counterexample :
    ((void_sale ⟨[], [], [⟨"A", "b1", "Ap", 0, "d"⟩], [], [],
        [⟨1, "R1", "t", "d", "", "", "", "", "", "Complete", "", "", ""⟩],
        [⟨1, "A", "Ap", 2⟩, ⟨1, "A", "Ap", 3⟩], [], [], [], [], 2⟩
        "R1" "" "admin" "Boss" "d2" "n2").1.inventory_log.filter
        (fun e => e.action == "Void Refund" && e.sku == "A")).length = 2 ∧
    ((([(⟨1, "A", "Ap", 2⟩ : SaleItemRow), ⟨1, "A", "Ap", 3⟩].filter
        (fun si => si.sale_id == 1 && si.sku != "")).map (fun si => si.sku)).dedup).length = 1 ∧
    ((void_sale ⟨[], [], [⟨"A", "b1", "Ap", 0, "d"⟩], [], [],
        [⟨1, "R1", "t", "d", "", "", "", "", "", "Complete", "", "", ""⟩],
        [⟨1, "A", "Ap", 2⟩, ⟨1, "A", "Ap", 3⟩], [], [], [], [], 2⟩
        "R1" "" "admin" "Boss" "d2" "n2").1.inventory_log.filter
        (fun e => e.action == "Void Refund" && e.sku == "A")).length ≠
      ((([(⟨1, "A", "Ap", 2⟩ : SaleItemRow), ⟨1, "A", "Ap", 3⟩].filter
        (fun si => si.sale_id == 1 && si.sku != "")).map (fun si => si.sku)).dedup).length := by
  refine ⟨?_, ?_, ?_⟩ <;> decide

/-! ## C5 — the `received`/`partial` status decision (code bug)

`all_received` starts `True` and is only cleared by lines the submission
actually applies, so a submission that omits an under-received line — in
particular an empty submission — marks the whole order `received` even though
ordered units are still outstanding.  The order then refuses all further
receiving (`row["status"] == "received"` guard), so the omitted line can
never be received.  The evaluation below exhibits this on a one-line order
(5 ordered, 0 received) with an empty submission. -/

/-- C5 failing input, evaluated: receiving an empty line list on a draft
order whose single line is entirely outstanding sets the status to
`received` (the claim requires `partial`), leaves the line at 0 of 5
received, and a subsequent genuine receive attempt is rejected. -/
theorem receive_order_empty_submission_marks_received :
    (receive_order ⟨[], [], [⟨"P1", "111111", "Pen", 5, "d0"⟩], [], [], [], [], [],
        [⟨1, "PO1", "Acme", "draft", "", "", "", "d0"⟩], [⟨1, 1, "P1", 5, 0⟩], [], 1⟩
        1 [] "" "Boss" "n").2 = RecvResult.ok "received" ∧
    (receive_order ⟨[], [], [⟨"P1", "111111", "Pen", 5, "d0"⟩], [], [], [], [], [],
        [⟨1, "PO1", "Acme", "draft", "", "", "", "d0"⟩], [⟨1, 1, "P1", 5, 0⟩], [], 1⟩
        1 [] "" "Boss" "n").1.purchase_orders =
      [⟨1, "PO1", "Acme", "received", "n", "Boss", "", "n"⟩] ∧
    (receive_order ⟨[], [], [⟨"P1", "111111", "Pen", 5, "d0"⟩], [], [], [], [], [],
        [⟨1, "PO1", "Acme", "draft", "", "", "", "d0"⟩], [⟨1, 1, "P1", 5, 0⟩], [], 1⟩
        1 [] "" "Boss" "n").1.purchase_order_items = [⟨1, 1, "P1", 5, 0⟩] ∧
    receive_order
        (receive_order ⟨[], [], [⟨"P1", "111111", "Pen", 5, "d0"⟩], [], [], [], [], [],
          [⟨1, "PO1", "Acme", "draft", "", "", "", "d0"⟩], [⟨1, 1, "P1", 5, 0⟩], [], 1⟩
          1 [] "" "Boss" "n").1
        1 [⟨"P1", 5⟩] "" "Boss" "n2" =
      ((receive_order ⟨[], [], [⟨"P1", "111111", "Pen", 5, "d0"⟩], [], [], [], [], [],
          [⟨1, "PO1", "Acme", "draft", "", "", "", "d0"⟩], [⟨1, 1, "P1", 5, 0⟩], [], 1⟩
          1 [] "" "Boss" "n").1, RecvResult.alreadyReceived) := by
  refine ⟨?_, ?_, ?_, ?_⟩ <;> decide

/-! ## C6 — export → import round-trip (code bug)

The import's `INSERT` into `inventory` does not list the `barcode` column, so
every imported product gets the schema default `''`; since the migrations
create the unique index `idx_inventory_barcode` on every database the import
can target, the second and all later products conflict on `barcode = ''` and
are silently dropped by `OR IGNORE` / `ON CONFLICT DO NOTHING`.  Exporting a
two-product database and importing it into an empty one therefore keeps only
one product (while the reported per-section counter still says 2). -/

/-- C6 failing input, evaluated: a source with products `101` and `102`
exports and imports into the empty database as a *single* product — with its
barcode dropped — so the product count is not reproduced. -/
theorem export_import_loses_products :
    (import_all_data (fun _ => "999999")
        (export_all_data ⟨[], [], [⟨"101", "111111", "A", 5, "d"⟩,
          ⟨"102", "222222", "B", 7, "d"⟩], [], [], [], [], [], [], [], [], 1⟩)
        emptyDB).1.inventory = [⟨"101", "", "A", 5, "d"⟩] ∧
    (import_all_data (fun _ => "999999")
        (export_all_data ⟨[], [], [⟨"101", "111111", "A", 5, "d"⟩,
          ⟨"102", "222222", "B", 7, "d"⟩], [], [], [], [], [], [], [], [], 1⟩)
        emptyDB).1.inventory.length = 1 ∧
    (⟨[], [], [⟨"101", "111111", "A", 5, "d"⟩, ⟨"102", "222222", "B", 7, "d"⟩],
        [], [], [], [], [], [], [], [], 1⟩ : DB).inventory.length = 2 ∧
    (import_all_data (fun _ => "999999")
        (export_all_data ⟨[], [], [⟨"101", "111111", "A", 5, "d"⟩,
          ⟨"102", "222222", "B", 7, "d"⟩], [], [], [], [], [], [], [], [], 1⟩)
        emptyDB).1.inventory.length ≠
      (⟨[], [], [⟨"101", "111111", "A", 5, "d"⟩, ⟨"102", "222222", "B", 7, "d"⟩],
        [], [], [], [], [], [], [], [], 1⟩ : DB).inventory.length ∧
    (import_all_data (fun _ => "999999")
        (export_all_data ⟨[], [], [⟨"101", "111111", "A", 5, "d"⟩,
          ⟨"102", "222222", "B", 7, "d"⟩], [], [], [], [], [], [], [], [], 1⟩)
        emptyDB).2.inventory = 2 := by
  refine ⟨?_, ?_, ?_, ?_, ?_⟩ <;> decide

/-! ## C7 — currency-symbol normalization -/

/-- A `find?` of the currency key in a mapped settings list: the rewriting map
preserves keys, so it commutes with the lookup. -/
theorem currency_find?_map (settings : List (String × String)) :
    ((settings.map (fun s => if s.1 = "currency_symbol" then (s.1, "₹") else s)).find?
        (fun s => s.1 == "currency_symbol")) =
      (settings.find? (fun s => s.1 == "currency_symbol")).map
        (fun s => if s.1 = "currency_symbol" then (s.1, "₹") else s) := by
  apply find?_map_comm
  intro x
  by_cases hx : x.1 = "currency_symbol" <;> simp [hx]

/-- Counterexample to C7 as stated: the SQLite normalization step run on a
settings table with no `currency_symbol` row inserts nothing — afterwards the
row is still absent, so the step is not total on both backends. -/
theorem sqlite_currency_absent_counterexample :
    sqliteCurrencyMigration [] = [] ∧
    (sqliteCurrencyMigration []).find? (fun s => s.1 == "currency_symbol") = none ∧
    sqliteCurrencyMigration [("currency_symbol", "USD")] = [("currency_symbol", "USD")] := by
  refine ⟨?_, ?_, ?_⟩ <;> decide

/-- C7 (amended): the PostgreSQL step is total and idempotent — an absent row
is inserted as `₹`, a value already `₹` (after stripping) is left unchanged,
any other value is forced to `₹`, and re-running changes nothing.  The SQLite
step only rewrites an existing value whose stripped lowercase form is `rs`,
`rs.` or `inr`, leaves an absent row absent and any other value (correct or
not) untouched, and is likewise idempotent. -/
theorem currency_migration_behavior (settings : List (String × String)) :
    (settings.find? (fun s => s.1 == "currency_symbol") = none →
       pgCurrencyMigration settings = settings ++ [("currency_symbol", "₹")] ∧
       sqliteCurrencyMigration settings = settings) ∧
    (∀ kv, settings.find? (fun s => s.1 == "currency_symbol") = some kv →
       (pyStrip kv.2 = "₹" → pgCurrencyMigration settings = settings) ∧
       (pyStrip kv.2 ≠ "₹" →
         pgCurrencyMigration settings =
           settings.map (fun s => if s.1 = "currency_symbol" then (s.1, "₹") else s)) ∧
       (pyLower (pyStrip kv.2) = "rs" ∨ pyLower (pyStrip kv.2) = "rs." ∨
           pyLower (pyStrip kv.2) = "inr" →
         sqliteCurrencyMigration settings =
           settings.map (fun s => if s.1 = "currency_symbol" then (s.1, "₹") else s)) ∧
       (¬(pyLower (pyStrip kv.2) = "rs" ∨ pyLower (pyStrip kv.2) = "rs." ∨
           pyLower (pyStrip kv.2) = "inr") →
         sqliteCurrencyMigration settings = settings)) ∧
    pgCurrencyMigration (pgCurrencyMigration settings) = pgCurrencyMigration settings ∧
    sqliteCurrencyMigration (sqliteCurrencyMigration settings) =
      sqliteCurrencyMigration settings := by
  have hkey : ∀ kv, settings.find? (fun s => s.1 == "currency_symbol") = some kv →
      kv.1 = "currency_symbol" := by
    intro kv hkv
    simpa using List.find?_some hkv
  refine ⟨?_, ?_, ?_, ?_⟩
  · intro hnone
    constructor
    · rw [pgCurrencyMigration, hnone]
    · rw [sqliteCurrencyMigration, hnone]
  · intro kv hkv
    refine ⟨?_, ?_, ?_, ?_⟩
    · intro hv
      rw [pgCurrencyMigration, hkv]
      dsimp only
      rw [if_neg (by simp [hv])]
    · intro hv
      rw [pgCurrencyMigration, hkv]
      dsimp only
      rw [if_pos hv]
    · intro hv
      rw [sqliteCurrencyMigration, hkv]
      dsimp only
      rw [if_pos hv]
    · intro hv
      rw [sqliteCurrencyMigration, hkv]
      dsimp only
      rw [if_neg hv]
  · cases hfind : settings.find? (fun s => s.1 == "currency_symbol") with
    | none =>
      have h1 : pgCurrencyMigration settings = settings ++ [("currency_symbol", "₹")] := by
        rw [pgCurrencyMigration, hfind]
      rw [h1, pgCurrencyMigration]
      have h2 : (settings ++ [(("currency_symbol", "₹") : String × String)]).find?
          (fun s => s.1 == "currency_symbol") = some ("currency_symbol", "₹") := by
        rw [List.find?_append, hfind]
        rfl
      rw [h2]
      dsimp only
      rw [if_neg (by decide)]
    | some kv =>
      by_cases hv : pyStrip kv.2 = "₹"
      · have h1 : pgCurrencyMigration settings = settings := by
          rw [pgCurrencyMigration, hfind]
          dsimp only
          rw [if_neg (by simp [hv])]
        rw [h1, h1]
      · have h1 : pgCurrencyMigration settings =
            settings.map (fun s => if s.1 = "currency_symbol" then (s.1, "₹") else s) := by
          rw [pgCurrencyMigration, hfind]
          dsimp only
          rw [if_pos hv]
        rw [h1, pgCurrencyMigration, currency_find?_map, hfind]
        have hk1 := hkey kv hfind
        simp +decide [hk1, pyStrip, pyWS]
  · cases hfind : settings.find? (fun s => s.1 == "currency_symbol") with
    | none =>
      have h1 : sqliteCurrencyMigration settings = settings := by
        rw [sqliteCurrencyMigration, hfind]
      rw [h1, h1]
    | some kv =>
      by_cases hv : pyLower (pyStrip kv.2) = "rs" ∨ pyLower (pyStrip kv.2) = "rs." ∨
          pyLower (pyStrip kv.2) = "inr"
      · have h1 : sqliteCurrencyMigration settings =
            settings.map (fun s => if s.1 = "currency_symbol" then (s.1, "₹") else s) := by
          rw [sqliteCurrencyMigration, hfind]
          dsimp only
          rw [if_pos hv]
        rw [h1, sqliteCurrencyMigration, currency_find?_map, hfind]
        have hk1 := hkey kv hfind
        simp +decide [hk1, pyStrip, pyWS, pyLower]
      · have h1 : sqliteCurrencyMigration settings = settings := by
          rw [sqliteCurrencyMigration, hfind]
          dsimp only
          rw [if_neg hv]
        rw [h1, h1]

/-- Witness for C7 (amended) at concrete settings tables: `Rs` is normalized
on both backends, an absent row is inserted on PostgreSQL only, and `₹` is
left alone. -/
theorem currency_migration_behavior_witness :
    (pgCurrencyMigration [] = [] ++ [("currency_symbol", "₹")] ∧
      sqliteCurrencyMigration [] = []) ∧
    sqliteCurrencyMigration [("currency_symbol", "Rs")] =
      [(("currency_symbol", "Rs") : String × String)].map
        (fun s => if s.1 = "currency_symbol" then (s.1, "₹") else s) ∧
    pgCurrencyMigration [("currency_symbol", "₹")] = [("currency_symbol", "₹")] :=
  ⟨(currency_migration_behavior []).1 rfl,
   (((currency_migration_behavior [("currency_symbol", "Rs")]).2.1
      ("currency_symbol", "Rs") rfl).2.2.1 (by decide)),
   (((currency_migration_behavior [("currency_symbol", "₹")]).2.1
      ("currency_symbol", "₹") rfl).1 (by decide))⟩

/-! ## C8 — the `INSERT OR REPLACE` rewrite of the statement translator -/

theorem matchKeywordCI_self (k : List Char) : ∀ r, matchKeywordCI k (k ++ r) = some r := by
  induction k with
  | nil => intro r; rfl
  | cons c cs ih => intro r; simp [matchKeywordCI, ih]

theorem takeWhile_append_cons (p : Char → Bool) (l : List Char) (c : Char) (r : List Char)
    (hl : ∀ x ∈ l, p x = true) (hc : p c = false) :
    (l ++ c :: r).takeWhile p = l := by
  induction l with
  | nil => simp [List.takeWhile_cons, hc]
  | cons a t ih =>
    have ha : p a = true := hl a (List.mem_cons_self _ _)
    simp [List.takeWhile_cons, ha, ih (fun x hx => hl x (List.mem_cons_of_mem _ hx))]

theorem dropWhile_append_cons (p : Char → Bool) (l : List Char) (c : Char) (r : List Char)
    (hl : ∀ x ∈ l, p x = true) (hc : p c = false) :
    (l ++ c :: r).dropWhile p = c :: r := by
  induction l with
  | nil => simp [List.dropWhile_cons, hc]
  | cons a t ih =>
    have ha : p a = true := hl a (List.mem_cons_self _ _)
    simp [List.dropWhile_cons, ha, ih (fun x hx => hl x (List.mem_cons_of_mem _ hx))]

theorem takeWhile1_append_cons (p : Char → Bool) (l : List Char) (c : Char) (r : List Char)
    (hl : ∀ x ∈ l, p x = true) (hc : p c = false) (hne : l ≠ []) :
    takeWhile1 p (l ++ c :: r) = some (l, c :: r) := by
  rw [takeWhile1, takeWhile_append_cons p l c r hl hc, dropWhile_append_cons p l c r hl hc]
  cases l with
  | nil => exact absurd rfl hne
  | cons a t => rfl

theorem takeUntilClose_exact (g : List Char) (r : List Char)
    (hg : ∀ x ∈ g, x ≠ ')') (hne : g ≠ []) :
    takeUntilClose (g ++ ')' :: r) = some (g, r) := by
  rw [takeUntilClose, takeWhile1_append_cons _ g ')' r
    (fun x hx => by simpa using hg x hx) (by simp) hne]
  simp [expectChar]

/-- The keyword prefix of the pattern consumes exactly
`INSERT OR REPLACE INTO ` when the next character is not whitespace. -/
theorem parseIORHead_lit (c : Char) (r : List Char) (hc : isSpaceChar c = false) :
    parseIORHead ("INSERT OR REPLACE INTO ".data ++ (c :: r)) = some (c :: r) := by
  show some (List.dropWhile isSpaceChar (c :: r)) = some (c :: r)
  rw [List.dropWhile_cons, if_neg (by simp [hc])]

/-- The capture part of the pattern on a well-formed tail. -/
theorem parseIORBody_exact (table cols vals : List Char)
    (htw : ∀ x ∈ table, isWordChar x = true) (htne : table ≠ [])
    (hcp : ∀ x ∈ cols, x ≠ ')') (hcne : cols ≠ [])
    (hvp : ∀ x ∈ vals, x ≠ ')') (hvne : vals ≠ []) :
    parseIORBody (table ++ (' ' :: '(' :: (cols ++ (')' :: ' ' :: ("VALUES".data ++
        (' ' :: '(' :: (vals ++ [')']))))))) = some (table, cols, vals) := by
  rw [parseIORBody]
  rw [takeWhile1_append_cons isWordChar table ' ' _ htw (by decide) htne]
  simp only [Option.bind_eq_bind, Option.some_bind]
  show (takeUntilClose (cols ++ (')' :: ' ' :: ("VALUES".data ++
      (' ' :: '(' :: (vals ++ [')'])))))) >>= _ = _
  rw [takeUntilClose_exact cols _ hcp hcne]
  simp only [Option.some_bind]
  show (takeUntilClose (vals ++ (')' :: []))) >>= _ = _
  rw [takeUntilClose_exact vals [] hvp hvne]
  simp only [Option.some_bind]
  rfl

/-- A word character is not whitespace. -/
theorem word_not_space (c : Char) (h : isWordChar c = true) : isSpaceChar c = false := by
  cases hx : isSpaceChar c
  · rfl
  · exfalso
    have hsp : c = ' ' ∨ c = '\t' ∨ c = '\n' ∨ c = '\r' ∨ c = '\x0b' ∨ c = '\x0c' := by
      simpa [isSpaceChar, or_assoc] using hx
    rcases hsp with h1 | h1 | h1 | h1 | h1 | h1 <;> subst h1 <;> exact absurd h (by decide)

/-- A non-empty string's character list is non-empty. -/
theorem data_ne_nil_of_ne_empty (s : String) (h : s ≠ "") : s.data ≠ [] := by
  intro hd
  apply h
  cases s
  simp at hd
  simp [hd]

/-- C8: a canonical `INSERT OR REPLACE INTO t (cols) VALUES (vals)` statement
— any word-character table name, any non-empty column and value lists free of
closing parens — parses into its three groups and is rewritten to the upsert
keyed on the first listed column, whose `DO UPDATE SET` assigns every other
listed column from the proposed row (`EXCLUDED`); and any statement the
pattern does not match is passed through unchanged. -/
theorem translateInsertOrReplace_correct (table cols vals : String)
    (htable : table ≠ "" ∧ ∀ c ∈ table.data, isWordChar c = true)
    (hcols : cols ≠ "" ∧ ∀ c ∈ cols.data, c ≠ ')')
    (hvals : vals ≠ "" ∧ ∀ c ∈ vals.data, c ≠ ')') :
    parseIOR ("INSERT OR REPLACE INTO " ++ table ++ " (" ++ cols ++ ") VALUES (" ++
        vals ++ ")") = some (table, cols, vals) ∧
    translateInsertOrReplace ("INSERT OR REPLACE INTO " ++ table ++ " (" ++ cols ++
        ") VALUES (" ++ vals ++ ")") =
      "INSERT INTO " ++ table ++ " (" ++ cols ++ ") VALUES (" ++ vals ++
        ") ON CONFLICT (" ++ first_col cols ++ ") DO UPDATE SET " ++ iorUpdates cols ∧
    (∀ sql : String, parseIOR sql = none → translateInsertOrReplace sql = sql) := by
  obtain ⟨htne, htw⟩ := htable
  obtain ⟨hcne, hcp⟩ := hcols
  obtain ⟨hvne, hvp⟩ := hvals
  have htd := data_ne_nil_of_ne_empty table htne
  have hcd := data_ne_nil_of_ne_empty cols hcne
  have hvd := data_ne_nil_of_ne_empty vals hvne
  have hdata : ("INSERT OR REPLACE INTO " ++ table ++ " (" ++ cols ++ ") VALUES (" ++
      vals ++ ")").data =
      "INSERT OR REPLACE INTO ".data ++ (table.data ++ (' ' :: '(' :: (cols.data ++
        (')' :: ' ' :: ("VALUES".data ++ (' ' :: '(' :: (vals.data ++ [')']))))))) := by
    simp only [String.data_append, List.append_assoc]
    rfl
  have hparse : parseIOR ("INSERT OR REPLACE INTO " ++ table ++ " (" ++ cols ++
      ") VALUES (" ++ vals ++ ")") = some (table, cols, vals) := by
    cases htdata : table.data with
    | nil => exact absurd htdata htd
    | cons c t' =>
      have hcw : isWordChar c = true := htw c (by rw [htdata]; exact List.mem_cons_self _ _)
      have hcs : isSpaceChar c = false := word_not_space c hcw
      have hdata2 : ("INSERT OR REPLACE INTO " ++ table ++ " (" ++ cols ++ ") VALUES (" ++
          vals ++ ")").data =
          "INSERT OR REPLACE INTO ".data ++ (c :: (t' ++ (' ' :: '(' :: (cols.data ++
            (')' :: ' ' :: ("VALUES".data ++ (' ' :: '(' :: (vals.data ++ [')'])))))))) := by
        rw [hdata, htdata]
        exact congrArg (fun L => "INSERT OR REPLACE INTO ".data ++ L)
          (List.cons_append c t' _)
      rw [parseIOR, hdata2, parseIORHead_lit c _ hcs]
      simp only [Option.bind_eq_bind, Option.some_bind]
      have hback : c :: (t' ++ (' ' :: '(' :: (cols.data ++
          (')' :: ' ' :: ("VALUES".data ++ (' ' :: '(' :: (vals.data ++ [')']))))))) =
          table.data ++ (' ' :: '(' :: (cols.data ++
          (')' :: ' ' :: ("VALUES".data ++ (' ' :: '(' :: (vals.data ++ [')'])))))) := by
        rw [htdata]
        exact (List.cons_append c t' _).symm
      rw [hback,
        parseIORBody_exact table.data cols.data vals.data htw htd hcp hcd hvp hvd]
      simp only [Option.some_bind]
      rfl
  refine ⟨hparse, ?_, ?_⟩
  · rw [translateInsertOrReplace, hparse]
  · intro sql h
    rw [translateInsertOrReplace, h]

/-- Witness for C8 at the settings upsert actually issued by the import:
`INSERT OR REPLACE INTO settings (key, value) VALUES (%s,%s)`. -/
theorem translateInsertOrReplace_correct_witness :
    parseIOR "INSERT OR REPLACE INTO settings (key, value) VALUES (%s,%s)" =
      some ("settings", "key, value", "%s,%s") ∧
    translateInsertOrReplace "INSERT OR REPLACE INTO settings (key, value) VALUES (%s,%s)" =
      "INSERT INTO " ++ "settings" ++ " (" ++ "key, value" ++ ") VALUES (" ++ "%s,%s" ++
        ") ON CONFLICT (" ++ first_col "key, value" ++ ") DO UPDATE SET " ++
        iorUpdates "key, value" :=
  ⟨(translateInsertOrReplace_correct "settings" "key, value" "%s,%s"
      ⟨by decide, by decide⟩ ⟨by decide, by decide⟩ ⟨by decide, by decide⟩).1,
   (translateInsertOrReplace_correct "settings" "key, value" "%s,%s"
      ⟨by decide, by decide⟩ ⟨by decide, by decide⟩ ⟨by decide, by decide⟩).2.1⟩

/-! ## C9 — import conflict handling -/

/-- The users section only appends to `users` and touches no other table. -/
theorem importUsers_shape (data : List UserRow) (acc : DB × Nat) :
    (∃ l, (importUsers data acc).1.users = acc.1.users ++ l) ∧
    (importUsers data acc).1.inventory = acc.1.inventory ∧
    (importUsers data acc).1.suppliers = acc.1.suppliers ∧
    (importUsers data acc).1.customers = acc.1.customers := by
  rw [importUsers]
  refine foldl_preserves (fun a : DB × Nat =>
    (∃ l, a.1.users = acc.1.users ++ l) ∧ a.1.inventory = acc.1.inventory ∧
      a.1.suppliers = acc.1.suppliers ∧ a.1.customers = acc.1.customers)
    _ data acc ?step ⟨⟨[], (List.append_nil _).symm⟩, rfl, rfl, rfl⟩
  rintro a u - ⟨⟨l, hl⟩, hi, hsp, hc⟩
  by_cases hconf : a.1.users.any (fun x => x.id == u.id || x.username == u.username) = true
  · rw [if_pos hconf]
    exact ⟨⟨l, hl⟩, hi, hsp, hc⟩
  · rw [if_neg hconf]
    exact ⟨⟨l ++ [u], by rw [hl, List.append_assoc]⟩, hi, hsp, hc⟩

/-- The settings section touches only the `settings` table. -/
theorem importSettings_shape (data : List (String × String)) (acc : DB × Nat) :
    (importSettings data acc).1.users = acc.1.users ∧
    (importSettings data acc).1.inventory = acc.1.inventory ∧
    (importSettings data acc).1.suppliers = acc.1.suppliers ∧
    (importSettings data acc).1.customers = acc.1.customers := by
  rw [importSettings]
  refine foldl_preserves (fun a : DB × Nat =>
    a.1.users = acc.1.users ∧ a.1.inventory = acc.1.inventory ∧
      a.1.suppliers = acc.1.suppliers ∧ a.1.customers = acc.1.customers)
    _ data acc ?step ⟨rfl, rfl, rfl, rfl⟩
  rintro a kv - ⟨hu, hi, hsp, hc⟩
  by_cases hconf : a.1.settings.any (fun s => s.1 == kv.1) = true
  · rw [if_pos hconf]
    exact ⟨hu, hi, hsp, hc⟩
  · rw [if_neg hconf]
    exact ⟨hu, hi, hsp, hc⟩

/-- The inventory section only appends rows whose SKU is not already present
(so distinct SKUs stay distinct), and touches no other table. -/
theorem importInventory_shape (genSku : List String → String) (data : List Product)
    (acc : DB × Nat) (hnd : (acc.1.inventory.map (fun p => p.sku)).Nodup) :
    (∃ l, (importInventory genSku data acc).1.inventory = acc.1.inventory ++ l) ∧
    ((importInventory genSku data acc).1.inventory.map (fun p => p.sku)).Nodup ∧
    (importInventory genSku data acc).1.users = acc.1.users ∧
    (importInventory genSku data acc).1.suppliers = acc.1.suppliers ∧
    (importInventory genSku data acc).1.customers = acc.1.customers := by
  rw [importInventory]
  exact foldl_preserves (fun a : DB × List String × Nat =>
    (∃ l, a.1.inventory = acc.1.inventory ++ l) ∧
      ((a.1.inventory.map (fun p => p.sku)).Nodup) ∧ a.1.users = acc.1.users ∧
      a.1.suppliers = acc.1.suppliers ∧ a.1.customers = acc.1.customers)
    (importInventoryRow genSku) data
    (acc.1, ((acc.1.inventory.filter (fun p => p.sku ≠ "")).map (fun p => p.sku)), acc.2)
    (fun a p _ h => by
      obtain ⟨⟨l, hl⟩, hnodup, hu, hsp, hc⟩ := h
      rw [importInventoryRow]
      by_cases hconf : a.1.inventory.any (fun x =>
          x.sku == (if pyStrip p.sku = "" then genSku a.2.1 else pyStrip p.sku) ||
            x.barcode == "") = true
      · rw [if_pos hconf]
        exact ⟨⟨l, hl⟩, hnodup, hu, hsp, hc⟩
      · rw [if_neg hconf]
        refine ⟨⟨l ++ [_], by rw [hl, List.append_assoc]⟩, ?_, hu, hsp, hc⟩
        have hfresh : ∀ x ∈ a.1.inventory,
            ¬ x.sku = (if pyStrip p.sku = "" then genSku a.2.1 else pyStrip p.sku) := by
          intro x hx
          simp only [List.any_eq_true, not_exists, not_and] at hconf
          have := hconf x hx
          simp only [Bool.or_eq_true, beq_iff_eq, not_or] at this
          exact this.1
        rw [List.map_append]
        simp only [List.nodup_append, List.map_cons, List.map_nil]
        refine ⟨hnodup, List.nodup_singleton _, ?_⟩
        intro s hs
        obtain ⟨x, hx, rfl⟩ := List.mem_map.mp hs
        simp only [List.mem_singleton]
        exact hfresh x hx
      ) ⟨⟨[], (List.append_nil _).symm⟩, hnd, rfl, rfl, rfl⟩

/-- The suppliers section only appends to `suppliers`. -/
theorem importSuppliers_shape (data : List SupplierRow) (acc : DB × Nat) :
    (∃ l, (importSuppliers data acc).1.suppliers = acc.1.suppliers ++ l) ∧
    (importSuppliers data acc).1.users = acc.1.users ∧
    (importSuppliers data acc).1.inventory = acc.1.inventory ∧
    (importSuppliers data acc).1.customers = acc.1.customers := by
  rw [importSuppliers]
  refine foldl_preserves (fun a : DB × Nat =>
    (∃ l, a.1.suppliers = acc.1.suppliers ++ l) ∧ a.1.users = acc.1.users ∧
      a.1.inventory = acc.1.inventory ∧ a.1.customers = acc.1.customers)
    _ data acc ?step ⟨⟨[], (List.append_nil _).symm⟩, rfl, rfl, rfl⟩
  rintro a s - ⟨⟨l, hl⟩, hu, hi, hc⟩
  by_cases hconf : a.1.suppliers.any (fun x => x.name == s.name) = true
  · rw [if_pos hconf]
    exact ⟨⟨l, hl⟩, hu, hi, hc⟩
  · rw [if_neg hconf]
    exact ⟨⟨l ++ [s], by rw [hl, List.append_assoc]⟩, hu, hi, hc⟩

/-- The customers section only appends to `customers`. -/
theorem importCustomers_shape (data : List CustomerRow) (acc : DB × Nat) :
    (∃ l, (importCustomers data acc).1.customers = acc.1.customers ++ l) ∧
    (importCustomers data acc).1.users = acc.1.users ∧
    (importCustomers data acc).1.inventory = acc.1.inventory ∧
    (importCustomers data acc).1.suppliers = acc.1.suppliers := by
  rw [importCustomers]
  refine foldl_preserves (fun a : DB × Nat =>
    (∃ l, a.1.customers = acc.1.customers ++ l) ∧ a.1.users = acc.1.users ∧
      a.1.inventory = acc.1.inventory ∧ a.1.suppliers = acc.1.suppliers)
    _ data acc ?step ⟨⟨[], (List.append_nil _).symm⟩, rfl, rfl, rfl⟩
  rintro a c - ⟨⟨l, hl⟩, hu, hi, hsp⟩
  by_cases hconf : a.1.customers.any (fun x => x.phone == c.phone) = true
  · rw [if_pos hconf]
    exact ⟨⟨l, hl⟩, hu, hi, hsp⟩
  · rw [if_neg hconf]
    exact ⟨⟨l ++ [c], by rw [hl, List.append_assoc]⟩, hu, hi, hsp⟩

/-- The sales section touches only `sales`, `sale_items` and the id counter. -/
theorem importSales_shape (data : List SnapSale) (acc : DB × Nat) :
    (importSales data acc).1.users = acc.1.users ∧
    (importSales data acc).1.inventory = acc.1.inventory ∧
    (importSales data acc).1.suppliers = acc.1.suppliers ∧
    (importSales data acc).1.customers = acc.1.customers := by
  rw [importSales]
  refine foldl_preserves (fun a : DB × Nat =>
    a.1.users = acc.1.users ∧ a.1.inventory = acc.1.inventory ∧
      a.1.suppliers = acc.1.suppliers ∧ a.1.customers = acc.1.customers)
    importSaleRow data acc ?step ⟨rfl, rfl, rfl, rfl⟩
  rintro a s - ⟨hu, hi, hsp, hc⟩
  rw [importSaleRow]
  by_cases hconf : a.1.sales.any (fun x => x.receipt_number == s.sale.receipt_number) = true
  · rw [if_pos hconf]
    exact ⟨hu, hi, hsp, hc⟩
  · rw [if_neg hconf]
    dsimp only
    by_cases hid : a.1.next_sale_id ≠ 0
    · rw [if_pos hid]
      exact ⟨hu, hi, hsp, hc⟩
    · rw [if_neg hid]
      exact ⟨hu, hi, hsp, hc⟩

/-- C9 (amended): the import never overwrites an existing destination row of
the `users`, `inventory`, `suppliers` or `customers` tables — every existing
row survives unchanged, new rows are only appended — and, when the
destination's SKUs are distinct (the schema's primary key), the SKUs stored
after the import are still pairwise distinct: an imported row, synthetic SKU
or not, never collides with a destination SKU or an earlier-imported one.
(`settings` rows, by contrast, are replaced on key conflict — see the
counterexample.) -/
theorem import_no_overwrite_and_fresh_skus
    (genSku : List String → String) (snap : Snapshot) (db : DB)
    (hskus : (db.inventory.map (fun p => p.sku)).Nodup) :
    (∃ l, (import_all_data genSku snap db).1.users = db.users ++ l) ∧
    (∃ l, (import_all_data genSku snap db).1.inventory = db.inventory ++ l) ∧
    (∃ l, (import_all_data genSku snap db).1.suppliers = db.suppliers ++ l) ∧
    (∃ l, (import_all_data genSku snap db).1.customers = db.customers ++ l) ∧
    ((import_all_data genSku snap db).1.inventory.map (fun p => p.sku)).Nodup := by
  set d1 : DB := (importUsers snap.users (db, 0)).1 with hd1
  set d2 : DB := (importSettings snap.settings (d1, 0)).1 with hd2
  set d3 : DB := (importInventory genSku snap.inventory (d2, 0)).1 with hd3
  set d4 : DB := (importSuppliers snap.suppliers (d3, 0)).1 with hd4
  set d5 : DB := (importCustomers snap.customers (d4, 0)).1 with hd5
  have hfinal : (import_all_data genSku snap db).1 = (importSales snap.sales (d5, 0)).1 := rfl
  obtain ⟨⟨lu, hu⟩, g1i, g1s, g1c⟩ := importUsers_shape snap.users (db, 0)
  obtain ⟨g2u, g2i, g2s, g2c⟩ := importSettings_shape snap.settings (d1, 0)
  have hnd2 : (d2.inventory.map (fun p => p.sku)).Nodup := by
    rw [g2i, g1i]
    exact hskus
  obtain ⟨⟨li, hi⟩, hnd3, g3u, g3s, g3c⟩ :=
    importInventory_shape genSku snap.inventory (d2, 0) hnd2
  obtain ⟨⟨lsp, hsp⟩, g4u, g4i, g4c⟩ := importSuppliers_shape snap.suppliers (d3, 0)
  obtain ⟨⟨lc, hc⟩, g5u, g5i, g5s⟩ := importCustomers_shape snap.customers (d4, 0)
  obtain ⟨g6u, g6i, g6s, g6c⟩ := importSales_shape snap.sales (d5, 0)
  refine ⟨⟨lu, ?_⟩, ⟨li, ?_⟩, ⟨lsp, ?_⟩, ⟨lc, ?_⟩, ?_⟩
  · rw [hfinal, g6u, g5u, g4u, g3u, g2u, hu]
  · rw [hfinal, g6i, g5i, g4i, hi, g2i, g1i]
  · rw [hfinal, g6s, g5s, hsp, g3s, g2s, g1s]
  · rw [hfinal, g6c, hc, g4c, g3c, g2c, g1c]
  · rw [hfinal, g6i, g5i, g4i]
    exact hnd3

/-- Witness for C9 (amended): importing a snapshot carrying a conflicting and
a fresh product into a one-product destination. -/
theorem import_no_overwrite_and_fresh_skus_witness :
    (∃ l, (import_all_data (fun _ => "999999")
        ⟨[], [], [⟨"101", "x", "A2", 9, "d2"⟩, ⟨"103", "y", "C", 1, "d3"⟩], [], [], []⟩
        ⟨[], [], [⟨"101", "111111", "A", 5, "d"⟩], [], [], [], [], [], [], [], [], 1⟩).1.users =
      [] ++ l) ∧
    (∃ l, (import_all_data (fun _ => "999999")
        ⟨[], [], [⟨"101", "x", "A2", 9, "d2"⟩, ⟨"103", "y", "C", 1, "d3"⟩], [], [], []⟩
        ⟨[], [], [⟨"101", "111111", "A", 5, "d"⟩], [], [], [], [], [], [], [], [], 1⟩).1.inventory =
      [⟨"101", "111111", "A", 5, "d"⟩] ++ l) ∧
    (∃ l, (import_all_data (fun _ => "999999")
        ⟨[], [], [⟨"101", "x", "A2", 9, "d2"⟩, ⟨"103", "y", "C", 1, "d3"⟩], [], [], []⟩
        ⟨[], [], [⟨"101", "111111", "A", 5, "d"⟩], [], [], [], [], [], [], [], [], 1⟩).1.suppliers =
      [] ++ l) ∧
    (∃ l, (import_all_data (fun _ => "999999")
        ⟨[], [], [⟨"101", "x", "A2", 9, "d2"⟩, ⟨"103", "y", "C", 1, "d3"⟩], [], [], []⟩
        ⟨[], [], [⟨"101", "111111", "A", 5, "d"⟩], [], [], [], [], [], [], [], [], 1⟩).1.customers =
      [] ++ l) ∧
    ((import_all_data (fun _ => "999999")
        ⟨[], [], [⟨"101", "x", "A2", 9, "d2"⟩, ⟨"103", "y", "C", 1, "d3"⟩], [], [], []⟩
        ⟨[], [], [⟨"101", "111111", "A", 5, "d"⟩], [], [], [], [], [], [], [], [], 1⟩).1.inventory.map
        (fun p => p.sku)).Nodup :=
  import_no_overwrite_and_fresh_skus (fun _ => "999999")
    ⟨[], [], [⟨"101", "x", "A2", 9, "d2"⟩, ⟨"103", "y", "C", 1, "d3"⟩], [], [], []⟩
    ⟨[], [], [⟨"101", "111111", "A", 5, "d"⟩], [], [], [], [], [], [], [], [], 1⟩
    (by decide)

/-- Counterexample to C9 as stated: settings rows are *not* skip-on-conflict.
Importing a snapshot whose `currency_symbol` is `₹` into a destination where
it is `$` replaces the destination value (`INSERT OR REPLACE`). -/
theorem import_overwrites_settings_counterexample :
    (import_all_data (fun _ => "999999")
        ⟨[], [("currency_symbol", "₹")], [], [], [], []⟩
        ⟨[], [("currency_symbol", "$")], [], [], [], [], [], [], [], [], [], 1⟩).1.settings =
      [("currency_symbol", "₹")] ∧
    ¬ (import_all_data (fun _ => "999999")
        ⟨[], [("currency_symbol", "₹")], [], [], [], []⟩
        ⟨[], [("currency_symbol", "$")], [], [], [], [], [], [], [], [], [], 1⟩).1.settings =
      [("currency_symbol", "$")] := by
  constructor <;> decide

end Nlfs














